import Mathlib

/-!
Verification development for the LocalHostWebServer repository
(`server.py`): a shallow embedding of the request-handling engine —
path resolution and the containment check, the byte-range file
streamer, the paginated listing builder, the thumbnail cache, the
multipart upload parser and the download packager — together with
theorems settling the specification's claims.

Bytes are modelled as `List Nat` (each element `< 256` in intended use)
and Python strings as Lean `String` / `List Char`.  Python's sequence
primitives (`find`, `rfind`, `split`, `replace`, slicing) are modelled
by the generic functions below.
-/

namespace WebSrv

/-- Model of Python bytes/str `find` restricted to a success index:
first index at which `pat` occurs contiguously in `s`. -/
def findSub? [DecidableEq α] (pat : List α) : List α → Option Nat
  | [] => if pat = [] then some 0 else none
  | a :: s => if pat.isPrefixOf (a :: s) then some 0 else (findSub? pat s).map (· + 1)

/-- Python `find`: index of the first occurrence, `-1` when absent. -/
def pyFind [DecidableEq α] (pat s : List α) : Int :=
  match findSub? pat s with
  | some i => (i : Int)
  | none => -1

/-- Python `in` on sequences: contiguous-subsequence containment. -/
def containsSub [DecidableEq α] (pat s : List α) : Bool :=
  (findSub? pat s).isSome

/-- Index of the last occurrence of `pat` in `s` (Python `rfind` success case). -/
def rfindSub? [DecidableEq α] (pat s : List α) : Option Nat :=
  (findSub? pat.reverse s.reverse).map (fun i => s.length - pat.length - i)

/-- Python `rfind`: index of the last occurrence, `-1` when absent. -/
def pyRfind [DecidableEq α] (pat s : List α) : Int :=
  match rfindSub? pat s with
  | some i => (i : Int)
  | none => -1

/-- Fuelled worker for `splitOnSub`. -/
def splitOnSubAux [DecidableEq α] (pat : List α) : Nat → List α → List (List α)
  | 0, s => [s]
  | fuel + 1, s =>
    match findSub? pat s with
    | none => [s]
    | some i => s.take i :: splitOnSubAux pat fuel (s.drop (i + pat.length))

/-- Python `split(sep)` for a non-empty separator: pieces between
non-overlapping left-to-right occurrences of `pat`. -/
def splitOnSub [DecidableEq α] (pat s : List α) : List (List α) :=
  splitOnSubAux pat (s.length + 1) s

/-- Fuelled worker for `replaceSub`. -/
def replaceSubAux [DecidableEq α] (pat rep : List α) : Nat → List α → List α
  | 0, s => s
  | fuel + 1, s =>
    match findSub? pat s with
    | none => s
    | some i => s.take i ++ rep ++ replaceSubAux pat rep fuel (s.drop (i + pat.length))

/-- Python `replace(pat, rep)`: every non-overlapping occurrence, left to right. -/
def replaceSub [DecidableEq α] (pat rep s : List α) : List α :=
  replaceSubAux pat rep (s.length + 1) s

/-- Python slice `s[a:b]` with signed indices: negative indices count from
the end, out-of-range indices clamp. -/
def pySlice (s : List α) (a b : Int) : List α :=
  let n : Int := s.length
  let a' : Int := if a < 0 then max (n + a) 0 else min a n
  let b' : Int := if b < 0 then max (n + b) 0 else min b n
  (s.take b'.toNat).drop a'.toNat

/-- Numeric value of a list of ASCII decimal digits. -/
def digitsVal (ds : List Char) : Nat :=
  ds.foldl (fun acc c => acc * 10 + (c.toNat - 48)) 0

/-- Whitespace as stripped by Python `int(str)`. -/
def isPySpace (c : Char) : Bool :=
  c = ' ' ∨ c = '\t' ∨ c = '\n' ∨ c = '\r'

/-- Model of Python `int(str)` on ASCII input: strip surrounding whitespace,
an optional sign, then a non-empty run of decimal digits; anything else
raises (`none`). -/
def parseIntChars? (s : List Char) : Option Int :=
  let t := ((s.dropWhile isPySpace).reverse.dropWhile isPySpace).reverse
  match t with
  | [] => none
  | '+' :: ds => if ds ≠ [] ∧ ds.all (·.isDigit) then some ((digitsVal ds : Nat) : Int) else none
  | '-' :: ds => if ds ≠ [] ∧ ds.all (·.isDigit) then some (-((digitsVal ds : Nat) : Int)) else none
  | ds => if ds.all (·.isDigit) then some ((digitsVal ds : Nat) : Int) else none

/-- Python `int(str)` over a Lean string. -/
def parseInt? (s : String) : Option Int := parseIntChars? s.data

/-- Python `str.split(sep)` over Lean strings, via the generic splitter. -/
def pySplitStr (sep s : String) : List String :=
  (splitOnSub sep.data s.data).map String.mk

/-- Python `s.startswith(p)` over code points. -/
def pyStartsWith (s p : String) : Bool := p.data.isPrefixOf s.data

/-- Python `s.endswith(p)` over code points. -/
def pyEndsWith (s p : String) : Bool := p.data.isSuffixOf s.data

/-- Python `str.lower` (ASCII). -/
def pyLower (s : String) : String := String.mk (s.data.map Char.toLower)

/-- `'/'.join` over path segments. -/
def joinSlash (segs : List String) : String :=
  String.mk (List.intercalate ['/'] (segs.map String.data))

/-! Path model: the POSIX `os.path` operations the server uses. -/

/-- Python `posixpath.normpath`: collapse separators, drop `.` components,
resolve `..` components textually (the leading-double-slash special case of
POSIX is not modelled; no input here produces it). -/
def normpath (s : String) : String :=
  if s = "" then "." else
  let isAbs := pyStartsWith s "/"
  let comps := ((splitOnSub ['/'] s.data).map String.mk).filter (fun c => c ≠ "" ∧ c ≠ ".")
  let revSegs := comps.foldl (fun acc c =>
    if c = ".." then
      match acc with
      | [] => if isAbs then [] else [".."]
      | t :: rest => if t = ".." then c :: acc else rest
    else c :: acc) []
  let segs := revSegs.reverse
  if isAbs then "/" ++ joinSlash segs
  else if segs = [] then "." else joinSlash segs

/-- Python `posixpath.join` for two components. -/
def pjoin (a b : String) : String :=
  if pyStartsWith b "/" then b
  else if a = "" ∨ pyEndsWith a "/" then a ++ b
  else a ++ "/" ++ b

/-- Python `str.lstrip('/')`. -/
def lstripSlash (s : String) : String := String.mk (s.data.dropWhile (· = '/'))

/-- Resolution of a request path against the serve root, as performed at
lines 90, 169 and 275: `os.path.normpath(os.path.join(SERVE_PATH, path.lstrip('/')))`. -/
def resolveReq (root reqPath : String) : String :=
  normpath (pjoin root (lstripSlash reqPath))

/-- The server's security check (lines 93, 177, 224 and 278): a plain
string-prefix test of the normalized candidate against the normalized root. -/
def secCheck (root fsPath : String) : Bool :=
  pyStartsWith (normpath fsPath) (normpath root)

/-- Path components of a path string, separators dropped. -/
def pathSegsOf (s : String) : List String :=
  ((splitOnSub ['/'] s.data).map String.mk).filter (· ≠ "")

/-- True containment: the location is the root itself or a descendant of it
(component-wise, not a string-prefix comparison). -/
def withinRoot (root p : String) : Bool :=
  (pathSegsOf (normpath root)).isPrefixOf (pathSegsOf (normpath p))

/-- Python `posixpath.dirname`. -/
def pyDirname (p : String) : String :=
  match rfindSub? ['/'] p.data with
  | none => ""
  | some i =>
    let head := p.data.take (i + 1)
    if head.all (· = '/') then String.mk head
    else String.mk ((head.reverse.dropWhile (· = '/')).reverse)

/-- Python `posixpath.basename`. -/
def pyBasename (p : String) : String :=
  String.mk ((p.data.reverse.takeWhile (· ≠ '/')).reverse)

/-- Length of the longest common prefix of two lists. -/
def commonLen [DecidableEq α] : List α → List α → Nat
  | a :: as, b :: bs => if a = b then commonLen as bs + 1 else 0
  | _, _ => 0

/-- Python `posixpath.relpath(p, start)` for absolute inputs. -/
def pyRelpath (p start : String) : String :=
  let pl := pathSegsOf (normpath p)
  let sl := pathSegsOf (normpath start)
  let k := commonLen pl sl
  let rel := List.replicate (sl.length - k) ".." ++ pl.drop k
  if rel = [] then "." else joinSlash rel

/-! Encodings: UTF-8, base64 and percent-quoting. -/

/-- UTF-8 encoding of one scalar value. -/
def utf8Char (c : Char) : List Nat :=
  let n := c.toNat
  if n < 128 then [n]
  else if n < 2048 then [192 + n / 64, 128 + n % 64]
  else if n < 65536 then [224 + n / 4096, 128 + (n / 64) % 64, 128 + n % 64]
  else [240 + n / 262144, 128 + (n / 4096) % 64, 128 + (n / 64) % 64, 128 + n % 64]

/-- Python `str.encode('utf-8')`. -/
def encodeUtf8 (s : String) : List Nat := s.data.flatMap utf8Char

/-- A UTF-8 continuation byte. -/
def isUtf8Cont (b : Nat) : Bool := 128 ≤ b ∧ b < 192

/-- Decode one UTF-8 scalar from the head of a byte list. -/
def utf8Dec1? : List Nat → Option (Char × List Nat)
  | [] => none
  | b :: rest =>
    if b < 128 then some (Char.ofNat b, rest)
    else if 194 ≤ b ∧ b < 224 then
      match rest with
      | b1 :: r =>
        if isUtf8Cont b1 then some (Char.ofNat ((b - 192) * 64 + (b1 - 128)), r) else none
      | [] => none
    else if 224 ≤ b ∧ b < 240 then
      match rest with
      | b1 :: b2 :: r =>
        if isUtf8Cont b1 ∧ isUtf8Cont b2 ∧ (b ≠ 224 ∨ 160 ≤ b1) ∧ (b ≠ 237 ∨ b1 < 160) then
          some (Char.ofNat ((b - 224) * 4096 + (b1 - 128) * 64 + (b2 - 128)), r)
        else none
      | _ => none
    else if 240 ≤ b ∧ b < 245 then
      match rest with
      | b1 :: b2 :: b3 :: r =>
        if isUtf8Cont b1 ∧ isUtf8Cont b2 ∧ isUtf8Cont b3 ∧
            (b ≠ 240 ∨ 144 ≤ b1) ∧ (b ≠ 244 ∨ b1 < 144) then
          some (Char.ofNat ((b - 240) * 262144 + (b1 - 128) * 4096 + (b2 - 128) * 64 + (b3 - 128)), r)
        else none
      | _ => none
    else none

/-- Fuelled worker for the strict decoder. -/
def utf8DecodeStrictAux : Nat → List Nat → Option (List Char)
  | _, [] => some []
  | 0, _ :: _ => none
  | fuel + 1, bs =>
    match utf8Dec1? bs with
    | some (c, r) => (utf8DecodeStrictAux fuel r).map (c :: ·)
    | none => none

/-- Python `bytes.decode('utf-8')`; `none` models `UnicodeDecodeError`. -/
def utf8DecodeStrict? (bs : List Nat) : Option String :=
  (utf8DecodeStrictAux (bs.length + 1) bs).map String.mk

/-- Fuelled worker for the `errors='ignore'` decoder. -/
def utf8DecodeIgnoreAux : Nat → List Nat → List Char
  | _, [] => []
  | 0, _ :: _ => []
  | fuel + 1, b :: bs =>
    match utf8Dec1? (b :: bs) with
    | some (c, r) => c :: utf8DecodeIgnoreAux fuel r
    | none => utf8DecodeIgnoreAux fuel bs

/-- Python `bytes.decode('utf-8', errors='ignore')`: undecodable bytes skipped. -/
def utf8DecodeIgnore (bs : List Nat) : String :=
  String.mk (utf8DecodeIgnoreAux (bs.length + 1) bs)

/-- The base64 alphabet. -/
def b64Char (n : Nat) : Char :=
  if n < 26 then Char.ofNat (65 + n)
  else if n < 52 then Char.ofNat (97 + (n - 26))
  else if n < 62 then Char.ofNat (48 + (n - 52))
  else if n = 62 then '+' else '/'

/-- Python `base64.b64encode`, ASCII-decoded. -/
def b64Encode : List Nat → List Char
  | [] => []
  | [a] => [b64Char (a / 4), b64Char (a % 4 * 16), '=', '=']
  | [a, b] => [b64Char (a / 4), b64Char (a % 4 * 16 + b / 16), b64Char (b % 16 * 4), '=']
  | a :: b :: c :: rest =>
    b64Char (a / 4) :: b64Char (a % 4 * 16 + b / 16) :: b64Char (b % 16 * 4 + c / 64) ::
      b64Char (c % 64) :: b64Encode rest

/-- Characters `urllib.parse.quote` leaves unescaped (default `safe='/'`). -/
def quoteSafe (c : Char) : Bool :=
  c.isAlpha ∨ c.isDigit ∨ c = '_' ∨ c = '.' ∨ c = '-' ∨ c = '~' ∨ c = '/'

/-- An uppercase hexadecimal digit. -/
def hexDigitU (n : Nat) : Char :=
  if n < 10 then Char.ofNat (48 + n) else Char.ofNat (55 + n)

/-- `urllib.parse.quote` with the default safe set. -/
def pyQuote (s : String) : String :=
  String.mk (s.data.flatMap (fun c =>
    if quoteSafe c then [c]
    else (utf8Char c).flatMap (fun b => ['%', hexDigitU (b / 16), hexDigitU (b % 16)])))

/-- Value of one hexadecimal digit. -/
def hexVal? (c : Char) : Option Nat :=
  if '0' ≤ c ∧ c ≤ '9' then some (c.toNat - 48)
  else if 'A' ≤ c ∧ c ≤ 'F' then some (c.toNat - 55)
  else if 'a' ≤ c ∧ c ≤ 'f' then some (c.toNat - 87)
  else none

/-- Fuelled worker for `pyUnquote`. -/
def pyUnquoteAux : Nat → List Char → List Char
  | _, [] => []
  | 0, l => l
  | fuel + 1, '%' :: a :: b :: rest =>
    match hexVal? a, hexVal? b with
    | some x, some y => Char.ofNat (16 * x + y) :: pyUnquoteAux fuel rest
    | _, _ => '%' :: pyUnquoteAux fuel (a :: b :: rest)
  | fuel + 1, c :: rest => c :: pyUnquoteAux fuel rest

/-- Model of `urllib.parse.unquote` for single-byte percent escapes (multi-byte
UTF-8 escape sequences are not recombined; the claims never exercise them). -/
def pyUnquote (s : String) : String :=
  String.mk (pyUnquoteAux (s.data.length + 1) s.data)

/-! The filesystem and the external collaborators. -/

/-- A filesystem node, keyed by normalized absolute path. -/
inductive FsNode where
  | absent
  | file (content : List Nat)
  | dir (entries : List String)
  | protectedDir (entries : List String)
deriving DecidableEq

/-- The filesystem: node map plus modification times. -/
structure Fs where
  node : String → FsNode
  mtime : String → Nat

/-- `os.path.isdir`. -/
def Fs.isdir (fs : Fs) (p : String) : Bool :=
  match fs.node p with
  | .dir _ => true
  | .protectedDir _ => true
  | _ => false

/-- `os.path.isfile`. -/
def Fs.isfile (fs : Fs) (p : String) : Bool :=
  match fs.node p with
  | .file _ => true
  | _ => false

/-- Content of a regular file (empty for other nodes). -/
def Fs.content (fs : Fs) (p : String) : List Nat :=
  match fs.node p with
  | .file c => c
  | _ => []

/-- `os.path.getsize` on a regular file. -/
def Fs.size (fs : Fs) (p : String) : Nat := (fs.content p).length

/-- Write a regular file (used by the upload path). -/
def Fs.write (fs : Fs) (p : String) (c : List Nat) : Fs :=
  { fs with node := fun q => if q = p then .file c else fs.node q }

/-- The request-handling environment: the serve root (`SERVE_PATH`), the
filesystem, and the external collaborators that the spec scopes out —
MIME inference (`mimetypes.guess_type`), the PIL image service (already
resized PNG bytes or a decode error), the ffmpeg frame extractor
(`.error ()` = raised/timeout, `.ok none` = no output file produced,
`.ok (some bytes)` = the extracted frame), `gzip.compress` and the byte
serialization of a zip archive. -/
structure Env where
  fs : Fs
  root : String
  mime : String → Option String
  hasPIL : Bool
  decodeImage : String → Except Unit (List Nat)
  extractFrame : String → Except Unit (Option (List Nat))
  gz : List Nat → List Nat
  zipBytes : List (String × List Nat) → List Nat

/-- The cache-size bound (line 54). -/
def MAX_CACHE_SIZE : Nat := 500

/-- Page size (line 57). -/
def ITEMS_PER_PAGE : Nat := 50

/-! `format_size` (lines 918-924).  Python iterates binary floats; every
value reached here is a dyadic rational represented exactly in binary
floating point, on which `.1f` formatting rounds the true value
half-to-even — so exact rational arithmetic with half-even rounding is a
faithful model for all byte counts below 2^53. -/

/-- Round `q * 10` to an integer, ties to even. -/
def round1fHalfEven (q : ℚ) : Int :=
  let t : ℚ := q * 10
  let f : Int := ⌊t⌋
  let r : ℚ := t - (f : ℚ)
  if r < 1 / 2 then f
  else if 1 / 2 < r then f + 1
  else if f % 2 = 0 then f else f + 1

/-- Python `f"{x:.1f}"` for non-negative `x`. -/
def fmt1f (q : ℚ) : String :=
  let n := (round1fHalfEven q).toNat
  toString (n / 10) ++ "." ++ toString (n % 10)

/-- Python `str.rstrip(c)` for a single character. -/
def rstripChar (c : Char) (s : String) : String :=
  String.mk ((s.data.reverse.dropWhile (· = c)).reverse)

/-- The unit loop of `format_size`. -/
def format_sizeAux : List String → ℚ → String
  | [], q => fmt1f q ++ " TB"
  | u :: us, q =>
    if q < 1024 then rstripChar '.' (rstripChar '0' (fmt1f q ++ " " ++ u))
    else format_sizeAux us (q / 1024)

/-- `format_size` (lines 918-924): the `rstrip('0').rstrip('.')` calls are
applied to the full `f"{size:.1f} {unit}"` string, after the unit suffix. -/
def format_size (bytesSize : Nat) : String :=
  format_sizeAux ["B", "KB", "MB", "GB"] (bytesSize : ℚ)

/-! The range-aware file streamer (`send_file`, lines 294-375). -/

/-- An HTTP response as the handler emits it: `status = none` models a code
path that writes body bytes without ever sending a status line or headers
(the parse-failure fallback inside the range branch, lines 339-341). -/
structure HttpResponse where
  status : Option Nat
  headers : List (String × String)
  body : List Nat
deriving DecidableEq

/-- The headers appended by `end_headers`.  The handler class defines
`end_headers` twice (lines 63-68 and 794-797); Python keeps the later
binding, so the gzip/1-hour-cache variant at line 63 is dead code and every
response gets exactly this trailer. -/
def endHeaders : List (String × String) :=
  [("Cache-Control", "no-cache, no-store, must-revalidate")]

/-- Parse of a `Range` header value (lines 308-311): delete every `bytes=`
occurrence, split on `-`, and read each of the two sides with `int()` when
non-empty (`none` in a component = omitted side).  Any shape or parse
failure yields `none` overall, the `except` path. -/
def parseRangeBounds (rh : String) : Option (Option Int × Option Int) :=
  let t := replaceSub "bytes=".data [] rh.data
  match splitOnSub ['-'] t with
  | [a, b] =>
    match (if a = [] then some none else (parseIntChars? a).map some) with
    | none => none
    | some sa =>
      match (if b = [] then some none else (parseIntChars? b).map some) with
      | none => none
      | some sb => some (sa, sb)
  | _ => none

/-- `send_full_file` (lines 365-375): the chunked whole-file write. -/
def send_full_file (content : List Nat) : List Nat := content

/-- The compressible MIME types (line 344). -/
def compressibleTypes : List String :=
  ["text/html", "text/plain", "text/css", "application/json", "application/javascript"]

/-- The 206 branch of `send_file` (lines 313-338) once the two bounds are
parsed and defaulted: widen out-of-bounds ranges to the whole file, then
send the partial-content status, the exact sub-range length, the
`Content-Range` line, and the seek-and-read body. -/
def rangeResponse (mimeType : String) (content : List Nat) (rs0 re0 : Int) : HttpResponse :=
  let fileSize : Int := content.length
  let rs : Int := if rs0 ≥ fileSize ∨ re0 ≥ fileSize then 0 else rs0
  let re : Int := if rs0 ≥ fileSize ∨ re0 ≥ fileSize then fileSize - 1 else re0
  let contentLength : Int := re - rs + 1
  { status := some 206
    headers :=
      [("Content-type", mimeType),
       ("Content-Length", toString contentLength),
       ("Content-Range",
         "bytes " ++ toString rs ++ "-" ++ toString re ++ "/" ++ toString fileSize),
       ("Accept-Ranges", "bytes"),
       ("Cache-Control", "public, max-age=86400")] ++ endHeaders
    body := (content.drop rs.toNat).take contentLength.toNat }

/-- `send_file` (lines 294-363).  `mime` is `mimetypes.guess_type` for the
path and `content` the file's bytes.  With a `Range` header that parses:
an omitted start is 0, an omitted end is `file_size - 1`, and the 206
sub-range response is emitted by `rangeResponse`.  A header that fails to
parse falls back to `send_full_file` inside the `except`, with no status
line or headers sent.  Without a `Range` header, the fixed set of
text-like types is gzipped with no length advertised; anything else
streams raw with an exact length. -/
def send_file (gz : List Nat → List Nat) (mime : Option String) (content : List Nat)
    (rangeHeader : Option String) : HttpResponse :=
  let mimeType := mime.getD "application/octet-stream"
  let fileSize : Int := content.length
  match rangeHeader with
  | some rh =>
    match parseRangeBounds rh with
    | some (sa, sb) =>
      rangeResponse mimeType content (sa.getD 0) (sb.getD (fileSize - 1))
    | none =>
      { status := none, headers := [], body := send_full_file content }
  | none =>
    if mimeType ∈ compressibleTypes then
      { status := some 200
        headers := [("Content-type", mimeType), ("Content-Encoding", "gzip")] ++ endHeaders
        body := gz content }
    else
      { status := some 200
        headers :=
          [("Content-type", mimeType),
           ("Content-Length", toString content.length),
           ("Accept-Ranges", "bytes"),
           ("Cache-Control", "public, max-age=86400")] ++ endHeaders
        body := send_full_file content }

/-! The thumbnail layer (lines 800-892). -/

/-- The inline-image fragment (lines 820 and 830). -/
def imgFragment (b64 : String) (filename : String) : String :=
  "<div class=\"thumbnail\" data-src=\"data:image/png;base64," ++ b64 ++
    "\"><img loading=\"lazy\" src=\"data:image/png;base64," ++ b64 ++
    "\" alt=\"" ++ filename ++ "\"></div>"

/-- An icon-marker fragment (a fixed `<div>` around one pictograph). -/
def iconFragment (icon : String) : String :=
  "<div class=\"thumbnail\">" ++ icon ++ "</div>"

/-- `extract_video_thumbnail` (lines 856-892): run ffmpeg with a 5-second
timeout; on any exception (including the timeout), or when no output file
was produced, yield `none`; otherwise the base64 of the frame file. -/
def extract_video_thumbnail (ffmpeg : String → Except Unit (Option (List Nat)))
    (videoPath : String) : Option String :=
  match ffmpeg videoPath with
  | .error _ => none
  | .ok none => none
  | .ok (some bytes) => some (String.mk (b64Encode bytes))

/-- The rendering block of `get_thumbnail_html` (lines 809-846), written as
its own function; the source inlines it between the two cache sections. -/
def renderFragment (env : Env) (filePath filename : String) : String :=
  let result : Option String :=
    match env.mime filePath with
    | some m =>
      if pyStartsWith m "image/" then
        if env.hasPIL then
          match env.decodeImage filePath with
          | .ok png => some (imgFragment (String.mk (b64Encode png)) filename)
          | .error _ => some (iconFragment "🖼️")
        else some (iconFragment "🖼️")
      else if pyStartsWith m "video/" then
        match extract_video_thumbnail env.extractFrame filePath with
        | some vb64 => some (imgFragment vb64 filename)
        | none => some (iconFragment "🎬")
      else if pyStartsWith m "audio/" then some (iconFragment "🎵")
      else if m = "application/pdf" then some (iconFragment "📄")
      else if pyStartsWith m "text/" then some (iconFragment "📝")
      else if containsSub "archive".data m.data ∨ containsSub "zip".data m.data ∨
          containsSub "rar".data m.data then
        some (iconFragment "📦")
      else none
    | none => none
  result.getD (iconFragment "📁")

/-- The thumbnail cache: key/fragment pairs (the global `THUMBNAIL_CACHE`). -/
abbrev ThumbCache := List (String × String)

/-- The cache key (line 802): `f"{file_path}:{os.path.getmtime(file_path)}"`. -/
def thumbKey (env : Env) (filePath : String) : String :=
  filePath ++ ":" ++ toString (env.fs.mtime filePath)

/-- `get_thumbnail_html` (lines 800-853): lock-guarded lookup; on a miss
render synchronously, then insert only while the cache is strictly below
`MAX_CACHE_SIZE` entries.  The `Bool` instruments whether the rendering
path ran; it is not part of the source's return value. -/
def get_thumbnail_html (env : Env) (filePath filename : String) (cache : ThumbCache) :
    String × ThumbCache × Bool :=
  let key := thumbKey env filePath
  match cache.lookup key with
  | some v => (v, cache, false)
  | none =>
    let result := renderFragment env filePath filename
    let cache' := if cache.length < MAX_CACHE_SIZE then (key, result) :: cache else cache
    (result, cache', true)

/-! The listing builder (`list_directory`, lines 377-792) and `do_GET`. -/

/-- Python `'\n'.join`. -/
def pyJoinLines : List String → String
  | [] => ""
  | [x] => x
  | x :: rest => x ++ "\n" ++ pyJoinLines rest

/-- Python `find(pat, start)` with a signed start index. -/
def pyFindFrom [DecidableEq α] (pat s : List α) (start : Int) : Int :=
  let n : Int := s.length
  let st : Nat := (if start < 0 then max (n + start) 0 else min start n).toNat
  match findSub? pat (s.drop st) with
  | some i => ((st + i : Nat) : Int)
  | none => -1

/-- `os.listdir` of a directory node. -/
def Fs.listdir (fs : Fs) (p : String) : List String :=
  match fs.node p with
  | .dir es => es
  | .protectedDir es => es
  | _ => []

/-- The browser-viewable MIME categories (lines 902-909). -/
def viewableTypes : List String :=
  ["image/", "video/", "audio/", "application/pdf", "text/", "application/json"]

/-- `is_viewable_file` (lines 895-915). -/
def is_viewable_file (mime : String → Option String) (filename : String) : Bool :=
  match mime filename with
  | none => false
  | some m => viewableTypes.any (fun v => pyStartsWith m v ∨ m = v)

/-- The sort order of line 385: directories first (`not isdir` ascending),
then case-insensitively by name; the sort itself is stable, like Python's. -/
def entryLE (env : Env) (path : String) (a b : String) : Bool :=
  let da := ! env.fs.isdir (pjoin path a)
  let db := ! env.fs.isdir (pjoin path b)
  (da = false ∧ db = true) ∨ (da = db ∧ pyLower a ≤ pyLower b)

/-- The sorted entry list (lines 380-385). -/
def sortedEntries (env : Env) (path : String) : List String :=
  (env.fs.listdir path).mergeSort (entryLE env path)

/-- The pagination slice (lines 683-686): `entries[start_idx:end_idx]`. -/
def paginatedEntries (entries : List String) (page : Nat) : List String :=
  (entries.drop ((page - 1) * ITEMS_PER_PAGE)).take ITEMS_PER_PAGE

/-- `total_pages` (line 687). -/
def totalPages (n : Nat) : Nat := (n + ITEMS_PER_PAGE - 1) / ITEMS_PER_PAGE

/-- One `param` step of the page-parsing loop of `do_GET` (lines 263-270). -/
def pageParamStep (cur : Nat) (param : String) : Nat :=
  if pyStartsWith param "page=" then
    match parseInt? ((pySplitStr "=" param).getD 1 "") with
    | some n => if n < 1 then 1 else n.toNat
    | none => 1
  else cur

/-- The page number extracted from a query string (lines 258-270). -/
def pageFromQuery (qs : String) : Nat :=
  (pySplitStr "&" qs).foldl pageParamStep 1

/-- The head/style/header block of the listing document (lines 394-455). -/
def htmlHeadParts (displayPath : String) : List String :=
  ["<!DOCTYPE html>",
   "<html>",
   "<head>",
   "<meta charset=\"utf-8\">",
   "<meta name=\"viewport\" content=\"width=device-width, initial-scale=1.0\">",
   "<title>File Browser - " ++ displayPath ++ "</title>",
   "<style>",
   "body \x7b font-family: -apple-system, BlinkMacSystemFont, \"Segoe UI\", Roboto, sans-serif; margin: 0; padding: 20px; background: #f5f5f5; \x7d",
   "h1 \x7b color: #333; margin-bottom: 10px; \x7d",
   ".header \x7b display: flex; justify-content: space-between; align-items: center; margin-bottom: 30px; \x7d",
   ".breadcrumb \x7b margin-bottom: 20px; \x7d",
   ".breadcrumb a \x7b color: #0066cc; text-decoration: none; margin: 0 5px; \x7d",
   ".breadcrumb a:hover \x7b text-decoration: underline; \x7d",
   ".upload-section \x7b background: white; padding: 20px; border-radius: 8px; margin-bottom: 20px; box-shadow: 0 2px 4px rgba(0,0,0,0.1); \x7d",
   ".upload-area \x7b border: 2px dashed #0066cc; border-radius: 8px; padding: 30px; text-align: center; cursor: pointer; transition: background 0.3s; \x7d",
   ".upload-area:hover \x7b background: #f0f7ff; \x7d",
   ".upload-area.dragover \x7b background: #e3f2fd; border-color: #1976d2; \x7d",
   ".upload-area p \x7b margin: 0 0 10px 0; color: #666; \x7d",
   ".file-input \x7b display: none; \x7d",
   ".upload-btn \x7b background: #0066cc; color: white; border: none; padding: 10px 20px; border-radius: 4px; cursor: pointer; font-size: 14px; \x7d",
   ".upload-btn:hover \x7b background: #0052a3; \x7d",
   ".upload-progress \x7b margin-top: 10px; display: none; \x7d",
   ".progress-bar \x7b width: 100%; height: 4px; background: #e0e0e0; border-radius: 2px; overflow: hidden; \x7d",
   ".progress-fill \x7b height: 100%; background: #0066cc; width: 0%; transition: width 0.3s; \x7d",
   ".upload-status \x7b margin-top: 10px; padding: 10px; border-radius: 4px; display: none; \x7d",
   ".upload-status.success \x7b background: #e8f5e9; color: #2e7d32; \x7d",
   ".upload-status.error \x7b background: #ffebee; color: #c62828; \x7d",
   ".container \x7b display: grid; grid-template-columns: repeat(auto-fill, minmax(150px, 1fr)); gap: 20px; \x7d",
   ".item \x7b background: white; border-radius: 8px; overflow: hidden; box-shadow: 0 2px 4px rgba(0,0,0,0.1); transition: transform 0.2s, box-shadow 0.2s; cursor: pointer; \x7d",
   ".item:hover \x7b transform: translateY(-5px); box-shadow: 0 8px 16px rgba(0,0,0,0.15); \x7d",
   ".item a \x7b text-decoration: none; color: inherit; display: flex; flex-direction: column; height: 100%; \x7d",
   ".thumbnail \x7b width: 100%; height: 120px; background: #e8e8e8; display: flex; align-items: center; justify-content: center; font-size: 48px; overflow: hidden; \x7d",
   ".thumbnail img \x7b width: 100%; height: 100%; object-fit: cover; \x7d",
   ".info \x7b padding: 10px; flex: 1; display: flex; flex-direction: column; justify-content: space-between; \x7d",
   ".name \x7b font-weight: 500; word-break: break-word; font-size: 13px; \x7d",
   ".size \x7b font-size: 11px; color: #666; margin-top: 5px; \x7d",
   ".directory .thumbnail \x7b background: #e3f2fd; \x7d",
   ".pagination \x7b text-align: center; margin-top: 40px; padding: 20px; \x7d",
   ".pagination a, .pagination span \x7b display: inline-block; padding: 8px 12px; margin: 0 4px; border-radius: 4px; \x7d",
   ".pagination a \x7b background: #0066cc; color: white; text-decoration: none; cursor: pointer; \x7d",
   ".pagination a:hover \x7b background: #0052a3; \x7d",
   ".pagination .current \x7b background: #333; color: white; padding: 8px 12px; border-radius: 4px; \x7d",
   ".pagination .disabled \x7b color: #ccc; cursor: not-allowed; \x7d",
   ".pagination-info \x7b color: #666; font-size: 14px; margin-bottom: 10px; \x7d",
   ".item.selected \x7b background: #e3f2fd; box-shadow: 0 0 0 2px #0066cc; \x7d",
   ".file-checkbox \x7b margin-right: 8px; cursor: pointer; width: 18px; height: 18px; \x7d",
   ".item-header \x7b display: flex; align-items: center; padding: 10px; background: #f9f9f9; border-bottom: 1px solid #e0e0e0; \x7d",
   ".modal \x7b display: none; position: fixed; top: 0; left: 0; width: 100%; height: 100%; background: rgba(0,0,0,0.8); z-index: 1000; align-items: center; justify-content: center; \x7d",
   ".modal.show \x7b display: flex; \x7d",
   ".modal-content \x7b background: white; border-radius: 8px; max-width: 90%; max-height: 90%; overflow: auto; position: relative; \x7d",
   ".modal-header \x7b padding: 15px; background: #333; color: white; display: flex; justify-content: space-between; align-items: center; border-radius: 8px 8px 0 0; \x7d",
   ".modal-close \x7b background: none; border: none; color: white; font-size: 24px; cursor: pointer; \x7d",
   ".video-player \x7b width: 100%; max-width: 800px; \x7d",
   ".video-player video \x7b width: 100%; height: auto; \x7d",
   "</style>",
   "</head>",
   "<body>",
   "<div class=\"header\">",
   "<h1>📂 " ++ displayPath ++ "</h1>",
   "</div>"]

/-- The upload section and its script (lines 469-534). -/
def uploadSectionParts : List String :=
  ["<div class=\"upload-section\">",
   "<form id=\"uploadForm\" class=\"upload-area\" ondrop=\"handleDrop(event)\" ondragover=\"handleDragOver(event)\" ondragleave=\"handleDragLeave(event)\">",
   "<input type=\"file\" id=\"fileInput\" class=\"file-input\" multiple onchange=\"handleFileSelect(event)\">",
   "<p><strong>📁 Drag files here or click to select</strong></p>",
   "<p style=\"font-size: 12px; color: #999;\">Select multiple files to upload</p>",
   "<button type=\"button\" class=\"upload-btn\" onclick=\"document.getElementById('fileInput').click()\">Choose Files</button>",
   "<div class=\"upload-progress\" id=\"uploadProgress\">",
   "<div class=\"progress-bar\"><div class=\"progress-fill\" id=\"progressFill\"></div></div>",
   "</div>",
   "<div class=\"upload-status\" id=\"uploadStatus\"></div>",
   "</form>",
   "</div>",
   "<script>",
   "function handleDragOver(e) \x7b",
   "  e.preventDefault();",
   "  e.stopPropagation();",
   "  document.getElementById(\"uploadForm\").classList.add(\"dragover\");",
   "\x7d",
   "function handleDragLeave(e) \x7b",
   "  e.preventDefault();",
   "  e.stopPropagation();",
   "  document.getElementById(\"uploadForm\").classList.remove(\"dragover\");",
   "\x7d",
   "function handleDrop(e) \x7b",
   "  e.preventDefault();",
   "  e.stopPropagation();",
   "  document.getElementById(\"uploadForm\").classList.remove(\"dragover\");",
   "  const files = e.dataTransfer.files;",
   "  uploadFiles(files);",
   "\x7d",
   "function handleFileSelect(e) \x7b",
   "  uploadFiles(e.target.files);",
   "\x7d",
   "function uploadFiles(files) \x7b",
   "  if (files.length === 0) return;",
   "  const formData = new FormData();",
   "  for (let i = 0; i < files.length; i++) \x7b",
   "    formData.append(\"files\", files[i]);",
   "  \x7d",
   "  const progressDiv = document.getElementById(\"uploadProgress\");",
   "  const statusDiv = document.getElementById(\"uploadStatus\");",
   "  progressDiv.style.display = \"block\";",
   "  statusDiv.style.display = \"none\";",
   "  fetch(window.location.pathname, \x7b",
   "    method: \"POST\",",
   "    body: formData",
   "  \x7d)",
   "  .then(response => response.text())",
   "  .then(data => \x7b",
   "    progressDiv.style.display = \"none\";",
   "    statusDiv.style.display = \"block\";",
   "    statusDiv.className = \"upload-status success\";",
   "    statusDiv.textContent = data;",
   "    document.getElementById(\"fileInput\").value = \"\";",
   "    setTimeout(() => location.reload(), 2000);",
   "  \x7d)",
   "  .catch(error => \x7b",
   "    progressDiv.style.display = \"none\";",
   "    statusDiv.style.display = \"block\";",
   "    statusDiv.className = \"upload-status error\";",
   "    statusDiv.textContent = \"❌ Upload failed: \" + error;",
   "  \x7d);",
   "\x7d",
   "</script>"]

/-- The download-selection section and its script (lines 537-603). -/
def downloadSectionParts : List String :=
  ["<div class=\"download-section\" id=\"downloadSection\" style=\"display: none; background: white; padding: 20px; border-radius: 8px; margin-bottom: 20px; box-shadow: 0 2px 4px rgba(0,0,0,0.1);\">",
   "<div style=\"display: flex; justify-content: space-between; align-items: center;\">",
   "<div>",
   "<input type=\"checkbox\" id=\"selectAll\" onchange=\"toggleSelectAll(this)\"> <strong>Select All</strong>",
   "<span id=\"selectedCount\" style=\"margin-left: 20px; color: #666;\">0 selected</span>",
   "</div>",
   "<button class=\"upload-btn\" onclick=\"downloadSelected()\" style=\"background: #28a745;\">⬇️ Download Selected</button>",
   "</div>",
   "</div>",
   "<script>",
   "const selectedFiles = new Set();",
   "",
   "function toggleSelectAll(checkbox) \x7b",
   "  const checkboxes = document.querySelectorAll(\".file-checkbox\");",
   "  checkboxes.forEach(cb => \x7b",
   "    cb.checked = checkbox.checked;",
   "    const item = cb.closest(\".item\");",
   "    if (checkbox.checked) \x7b",
   "      selectedFiles.add(cb.value);",
   "      item.classList.add(\"selected\");",
   "    \x7d else \x7b",
   "      selectedFiles.delete(cb.value);",
   "      item.classList.remove(\"selected\");",
   "    \x7d",
   "  \x7d);",
   "  updateSelectedCount();",
   "\x7d",
   "",
   "function toggleFileSelect(checkbox) \x7b",
   "  console.log(\"Toggling:\", checkbox.value, \"Checked:\", checkbox.checked);",
   "  if (checkbox.checked) \x7b",
   "    selectedFiles.add(checkbox.value);",
   "  \x7d else \x7b",
   "    selectedFiles.delete(checkbox.value);",
   "  \x7d",
   "  console.log(\"Selected files:\", Array.from(selectedFiles));",
   "  updateSelectedCount();",
   "\x7d",
   "",
   "function updateSelectedCount() \x7b",
   "  const count = selectedFiles.size;",
   "  document.getElementById(\"selectedCount\").textContent = count + \" selected\";",
   "  const downloadSection = document.getElementById(\"downloadSection\");",
   "  downloadSection.style.display = count > 0 ? \"block\" : \"none\";",
   "\x7d",
   "",
   "function downloadSelected() \x7b",
   "  if (selectedFiles.size === 0) \x7b",
   "    alert(\"Please select files to download\");",
   "    return;",
   "  \x7d",
   "  console.log(\"Downloading:\", Array.from(selectedFiles));",
   "  const form = document.createElement(\"form\");",
   "  form.method = \"POST\";",
   "  form.action = window.location.pathname;",
   "  const filesInput = document.createElement(\"input\");",
   "  filesInput.type = \"hidden\";",
   "  filesInput.name = \"files_to_download\";",
   "  filesInput.value = Array.from(selectedFiles).join(\",\");",
   "  form.appendChild(filesInput);",
   "  document.body.appendChild(form);",
   "  form.submit();",
   "  document.body.removeChild(form);",
   "\x7d",
   "</script>"]

/-- The video-player modal and its script (lines 606-666). -/
def videoModalParts : List String :=
  ["<div id=\"videoModal\" class=\"modal\">",
   "<div class=\"modal-content\">",
   "<div class=\"modal-header\">",
   "<span id=\"videoTitle\"></span>",
   "<button class=\"modal-close\" onclick=\"closeVideoPlayer()\">&times;</button>",
   "</div>",
   "<div class=\"video-player\">",
   "<video id=\"videoPlayer\" controls preload=\"metadata\" style=\"width: 100%; max-height: 70vh;\">",
   "<source id=\"videoSource\" src=\"\" type=\"video/mp4\">",
   "Your browser does not support the video tag.",
   "</video>",
   "</div>",
   "</div>",
   "</div>",
   "<script>",
   "function playVideo(filename, filepath) \x7b",
   "  const videoModal = document.getElementById(\"videoModal\");",
   "  const videoTitle = document.getElementById(\"videoTitle\");",
   "  const videoSource = document.getElementById(\"videoSource\");",
   "  const videoPlayer = document.getElementById(\"videoPlayer\");",
   "  ",
   "  videoTitle.textContent = \"▶️ \" + filename;",
   "  videoSource.src = filepath;",
   "  videoSource.type = getMimeType(filename);",
   "  ",
   "  videoPlayer.load();",
   "  videoModal.classList.add(\"show\");",
   "\x7d",
   "",
   "function closeVideoPlayer() \x7b",
   "  const videoModal = document.getElementById(\"videoModal\");",
   "  const videoPlayer = document.getElementById(\"videoPlayer\");",
   "  videoPlayer.pause();",
   "  videoModal.classList.remove(\"show\");",
   "\x7d",
   "",
   "function getMimeType(filename) \x7b",
   "  const ext = filename.split(\".\").pop().toLowerCase();",
   "  const mimeTypes = \x7b",
   "    \"mp4\": \"video/mp4\",",
   "    \"webm\": \"video/webm\",",
   "    \"ogg\": \"video/ogg\",",
   "    \"mov\": \"video/quicktime\",",
   "    \"avi\": \"video/x-msvideo\",",
   "    \"mkv\": \"video/x-matroska\",",
   "    \"flv\": \"video/x-flv\",",
   "    \"wmv\": \"video/x-ms-wmv\"",
   "  \x7d;",
   "  return mimeTypes[ext] || \"video/mp4\";",
   "\x7d",
   "",
   "document.addEventListener(\"keydown\", (e) => \x7b",
   "  if (e.key === \"Escape\") closeVideoPlayer();",
   "\x7d);",
   "",
   "document.getElementById(\"videoModal\").addEventListener(\"click\", (e) => \x7b",
   "  if (e.target.id === \"videoModal\") closeVideoPlayer();",
   "\x7d);",
   "</script>"]

/-- The breadcrumb trail (lines 458-466). -/
def breadcrumbParts (relPath : String) : List String :=
  if relPath = "" then []
  else
    ["<div class=\"breadcrumb\">", "<a href=\"/\">🏠 Home</a>"] ++
    (let parts := relPath.splitOn "/"
     (parts.foldl (fun (acc : String × List String) part =>
        let current := acc.1 ++ "/" ++ part
        (current, acc.2 ++ [" / <a href=\"" ++ pyQuote current ++ "\">" ++ part ++ "</a>"]))
        ("", [])).2) ++
    ["</div>"]

/-- The parent-directory tile (lines 670-681). -/
def parentItemParts (env : Env) (path relPath : String) : List String :=
  if relPath = "" then []
  else
    let parent := pyDirname path
    let parentRel := pyRelpath parent env.root
    let parentUrl := if parentRel = "." then "/" else "/" ++ parentRel
    ["<div class=\"item directory\"><a href=\"" ++ pyQuote parentUrl ++
      "\"><div class=\"thumbnail\">⬆️</div><div class=\"info\"><div class=\"name\">..</div></div></a></div>"]

/-- One entry tile (lines 690-731), threading the thumbnail cache. -/
def entryItemHtml (env : Env) (path : String) (page : Nat) (idx : Nat) (entry : String)
    (cache : ThumbCache) : String × ThumbCache :=
  let fullPath := pjoin path entry
  let rel := pyRelpath fullPath env.root
  let url := if rel ≠ "." then "/" ++ rel else "/"
  if env.fs.isdir fullPath then
    ("<div class=\"item directory\"><a href=\"" ++ pyQuote url ++
      "\"><div class=\"thumbnail\">📁</div><div class=\"info\"><div class=\"name\">" ++ entry ++
      "</div></div></a></div>", cache)
  else
    let sizeStr := format_size (env.fs.size fullPath)
    let tRes := get_thumbnail_html env fullPath entry cache
    let thumbnailHtml := tRes.1
    let cache2 := tRes.2.1
    let isVideo := (env.mime fullPath).elim false (fun m => pyStartsWith m "video/")
    let itemId := "item-" ++ toString idx ++ "-" ++ toString page
    let encodedEntry := String.mk (replaceSub ['\''] "&#39;".data
      (replaceSub ['"'] "&quot;".data entry.data))
    let linkContent := thumbnailHtml ++
      "<div class=\"info\"><div class=\"name\"></div><div class=\"size\">" ++ sizeStr ++
      "</div></div>"
    let onclickHandler :=
      if isVideo then
        "onclick=\"playVideo('" ++ encodedEntry ++ "', '" ++ pyQuote url ++
          "'); event.stopPropagation();\""
      else ""
    let target :=
      if ¬ isVideo ∧ is_viewable_file env.mime entry then " target=\"_blank\"" else ""
    ("<div class=\"item\" id=\"" ++ itemId ++
      "\"><div class=\"item-header\" style=\"position: relative; z-index: 10;\">" ++
      "<input type=\"checkbox\" class=\"file-checkbox\" value=\"" ++ encodedEntry ++
      "\" onchange=\"toggleFileSelect(this); document.getElementById('" ++ itemId ++
      "').classList.toggle('selected');\">" ++
      "<span style=\"flex: 1; font-size: 12px; margin-left: 5px;\">" ++ entry ++ "</span>" ++
      "</div>" ++
      "<a href=\"" ++ (if ¬ isVideo then pyQuote url else "#") ++ "\" " ++
      (if ¬ isVideo then target else "") ++ " " ++ onclickHandler ++ ">" ++
      linkContent ++ "</a>" ++
      "</div>", cache2)

/-- The entry loop (lines 690-731) over the page's slice. -/
def entryItemsParts (env : Env) (path : String) (page : Nat) (entries : List String)
    (cache : ThumbCache) : List String × ThumbCache :=
  let res := entries.foldl (fun (acc : List String × ThumbCache × Nat) entry =>
    let r := entryItemHtml env path page acc.2.2 entry acc.2.1
    (acc.1 ++ [r.1], r.2, acc.2.2 + 1)) ([], cache, 0)
  (res.1, res.2.1)

/-- The pagination controls (lines 737-776), or the single-page summary. -/
def paginationParts (displayPath : String) (page totalPg shown total : Nat) : List String :=
  if 1 < totalPg then
    ["<div class=\"pagination\">",
     "<div class=\"pagination-info\">Page " ++ toString page ++ " of " ++ toString totalPg ++
       " • Showing " ++ toString shown ++ " of " ++ toString total ++ " items</div>"] ++
    (if 1 < page then
      ["<a href=\"" ++ pyQuote displayPath ++ "?page=" ++ toString (page - 1) ++
        "\">← Previous</a>"]
     else ["<span class=\"disabled\">← Previous</span>"]) ++
    (let startPage := max 1 (page - 2)
     let endPage := min totalPg (page + 2)
     (if 1 < startPage then
        ["<a href=\"" ++ pyQuote displayPath ++ "?page=1\">1</a>"] ++
        (if 2 < startPage then ["<span>...</span>"] else [])
      else []) ++
     ((List.range (endPage + 1 - startPage)).map (fun k =>
        let p := startPage + k
        if p = page then "<span class=\"current\">" ++ toString p ++ "</span>"
        else "<a href=\"" ++ pyQuote displayPath ++ "?page=" ++ toString p ++ "\">" ++
          toString p ++ "</a>")) ++
     (if endPage < totalPg then
        (if endPage < totalPg - 1 then ["<span>...</span>"] else []) ++
        ["<a href=\"" ++ pyQuote displayPath ++ "?page=" ++ toString totalPg ++ "\">" ++
          toString totalPg ++ "</a>"]
      else [])) ++
    (if page < totalPg then
      ["<a href=\"" ++ pyQuote displayPath ++ "?page=" ++ toString (page + 1) ++ "\">Next →</a>"]
     else ["<span class=\"disabled\">Next →</span>"]) ++
    ["</div>"]
  else
    ["<div style=\"text-align: center; margin-top: 40px; color: #666;\">Showing " ++
      toString total ++ " item" ++ (if total ≠ 1 then "s" else "") ++ "</div>"]

/-- The document build of `list_directory` (lines 379-783): list, sort,
paginate, assemble `html_parts`, join with newlines; the thumbnail cache is
threaded through the entry loop. -/
def listingHtml (env : Env) (path : String) (page : Nat) (cache : ThumbCache) :
    String × ThumbCache :=
  let entries := sortedEntries env path
  let relPath0 := pyRelpath path env.root
  let relPath := if relPath0 = "." then "" else relPath0
  let displayPath := if relPath ≠ "" then "/" ++ relPath else "/"
  let paginated := paginatedEntries entries page
  let totalPg := totalPages entries.length
  let itemsRes := entryItemsParts env path page paginated cache
  let parts :=
    htmlHeadParts displayPath ++
    breadcrumbParts relPath ++
    uploadSectionParts ++
    downloadSectionParts ++
    videoModalParts ++
    ["<div class=\"container\">"] ++
    parentItemParts env path relPath ++
    itemsRes.1 ++
    ["</div>"] ++
    paginationParts displayPath page totalPg paginated.length entries.length ++
    ["</body>", "</html>"]
  (pyJoinLines parts, itemsRes.2)

/-- A summary of the stdlib `send_error(code, msg)` responder: the status
code, the trailer from `end_headers`, and the message in the body. -/
def errorResponse (code : Nat) (msg : String) : HttpResponse :=
  { status := some code, headers := endHeaders, body := encodeUtf8 msg }

/-- `list_directory` (lines 377-792).  A `PermissionError` from `os.listdir`
becomes a 403; otherwise the document is built and sent with status 200,
`Content-Encoding: gzip` and `Content-Length` equal to the COMPRESSED
length — and the handler then writes the compressed bytes followed by the
raw encoded document again (lines 791-792 both execute). -/
def list_directory (env : Env) (path : String) (page : Nat) (cache : ThumbCache) :
    HttpResponse × ThumbCache :=
  match env.fs.node path with
  | .protectedDir _ => (errorResponse 403 "Permission denied", cache)
  | _ =>
    let r := listingHtml env path page cache
    let compressed := env.gz (encodeUtf8 r.1)
    ({ status := some 200
       headers :=
         [("Content-type", "text/html; charset=utf-8"),
          ("Content-Encoding", "gzip"),
          ("Content-Length", toString compressed.length)] ++ endHeaders
       body := compressed ++ encodeUtf8 r.1 }, r.2)

/-- Filesystem trace: the paths the handler touches with `os` calls at its
dispatch level, in order (instrumentation; not a value of the source). -/
abbrev FsTrace := List String

/-- `do_GET` (lines 253-292): split off the query string, parse the page
parameter, resolve against the root, run the security check BEFORE any
filesystem operation, then dispatch: directory → listing, file → streamer,
else 404. -/
def do_GET (env : Env) (rawPath : String) (rangeHeader : Option String) (cache : ThumbCache) :
    HttpResponse × ThumbCache × FsTrace :=
  let qparts := pySplitStr "?" rawPath
  let path := qparts.getD 0 ""
  let page := if 2 ≤ qparts.length then pageFromQuery (qparts.getD 1 "") else 1
  let fsPath := resolveReq env.root path
  if ¬ secCheck env.root fsPath then
    (errorResponse 403 "Access denied", cache, [])
  else if env.fs.isdir fsPath then
    let r := list_directory env fsPath page cache
    (r.1, r.2, [fsPath])
  else if env.fs.isfile fsPath then
    (send_file env.gz (env.mime fsPath) (env.fs.content fsPath) rangeHeader, cache,
      [fsPath, fsPath])
  else
    (errorResponse 404 "File not found", cache, [fsPath, fsPath])

/-! The upload parser and download packager (`do_POST`, lines 81-251). -/

/-- The download-selection parse (lines 161-163): the text between
`files_to_download=` and the next `&`, split on commas, blank-stripped
names dropped, each name URL-unquoted. -/
def parseFilesList (bodyStr : String) : List String :=
  let cs := bodyStr.data
  let filesSection :=
    if containsSub "files_to_download=".data cs then
      (splitOnSub ['&'] ((splitOnSub "files_to_download=".data cs).getD 1 [])).getD 0 []
    else []
  ((splitOnSub [','] filesSection).map (fun f => String.mk f)).filterMap
    (fun f => if ¬ f.data.all isPySpace then some (pyUnquote f) else none)

/-- A download response: an error, a direct single-file stream, or a zip
archive whose entries are name/content pairs (`method` records the
`zipfile` compression constant in force). -/
inductive DlResp where
  | err (code : Nat) (msg : String)
  | single (status : Nat) (headers : List (String × String)) (body : List Nat)
  | zipR (status : Nat) (headers : List (String × String)) (method : String)
      (entries : List (String × List Nat))
deriving DecidableEq

/-- `send_file_download` (lines 191-209): status 200, an octet-stream
content type, a `Content-Disposition` attachment carrying the requested
name, the exact length, and the file bytes in chunks. -/
def send_file_download (env : Env) (filePath fileName : String) : DlResp :=
  .single 200
    ([("Content-type", "application/octet-stream"),
      ("Content-Disposition", "attachment; filename=\"" ++ fileName ++ "\""),
      ("Content-Length", toString (env.fs.size filePath))] ++ endHeaders)
    (env.fs.content filePath)

/-- The archive contents built by `send_zip_download` (lines 219-229):
every name is re-resolved against the directory; names failing the prefix
check, or not naming a regular file, are silently skipped; surviving
entries carry the requested name as flat arcname and the file's bytes. -/
def zipEntries (env : Env) (basePath : String) (filesList : List String) :
    List (String × List Nat) :=
  filesList.filterMap (fun fileName =>
    let filePath := normpath (pjoin basePath fileName)
    if ¬ secCheck env.root filePath then none
    else if env.fs.isfile filePath then some (fileName, env.fs.content filePath)
    else none)

/-- The filesystem accesses of the zip loop: `os.path.isfile`/`zf.write`
touch only names that passed the prefix check. -/
def zipTrace (env : Env) (basePath : String) (filesList : List String) : FsTrace :=
  filesList.filterMap (fun fileName =>
    let filePath := normpath (pjoin basePath fileName)
    if ¬ secCheck env.root filePath then none else some filePath)

/-- `send_zip_download` (lines 211-251): build the deflate archive in a
temporary file and stream it with status 200 and a `download.zip`
attachment disposition. -/
def send_zip_download (env : Env) (basePath : String) (filesList : List String) : DlResp :=
  let entries := zipEntries env basePath filesList
  .zipR 200
    ([("Content-type", "application/zip"),
      ("Content-Disposition", "attachment; filename=\"download.zip\""),
      ("Content-Length", toString (env.zipBytes entries).length)] ++ endHeaders)
    "ZIP_DEFLATED" entries

/-- `handle_download` (lines 157-189), taking the already-split selection
(`parseFilesList` models the body parse of lines 161-163).  An empty
selection is a 400.  Exactly one REQUESTED name is prefix-checked and,
when it names a regular file, streamed directly; every other case —
including a single requested name that passes the check but is not a
regular file — falls through to the zip path. -/
def handle_download (env : Env) (pathStr : String) (filesList : List String) :
    DlResp × FsTrace :=
  if filesList.isEmpty then (.err 400 "No files selected", [])
  else
    let fsPath := resolveReq env.root pathStr
    match filesList with
    | [fileName] =>
      let filePath := normpath (pjoin fsPath fileName)
      if ¬ secCheck env.root filePath then (.err 403 "Access denied", [])
      else if env.fs.isfile filePath then
        (send_file_download env filePath fileName, [filePath, filePath])
      else
        (send_zip_download env fsPath [fileName], filePath :: zipTrace env fsPath [fileName])
    | _ =>
      (send_zip_download env fsPath filesList, zipTrace env fsPath filesList)

/-- The per-part step of the upload loop (lines 127-146): skip a part with
no `filename=` marker; otherwise extract the filename between
`filename="` and the next quote (decoded strictly — a decode failure
raises), the payload between the first blank line and the last line
break, and report a write unless the filename is empty. -/
def processPart (part : List Nat) : Except Unit (Option (String × List Nat)) :=
  if ¬ containsSub (encodeUtf8 "filename=") part then .ok none
  else
    let filenameStart := pyFind (encodeUtf8 "filename=\"") part + 10
    let filenameEnd := pyFindFrom (encodeUtf8 "\"") part filenameStart
    let filenameBytes := pySlice part filenameStart filenameEnd
    match utf8DecodeStrict? filenameBytes with
    | none => .error ()
    | some filename =>
      let contentStart := pyFind (encodeUtf8 "\r\n\r\n") part + 4
      let contentEnd := pyRfind (encodeUtf8 "\r\n") part
      let fileContent := pySlice part contentStart contentEnd
      if filename = "" then .ok none
      else .ok (some (pyBasename filename, fileContent))

/-- The multipart parse-and-write loop (lines 120-146): extract the
boundary (its absence raises), split the body on `--boundary`, drop the
preamble and epilogue segments, process each part in order, and write
each extracted payload under its basename into the target directory,
counting the writes.  An error models the `except` path (line 154). -/
def uploadFiles (env : Env) (fsPath : String) (contentType : String) (body : List Nat) :
    Except Unit (Fs × Nat) :=
  let ctParts := pySplitStr "boundary=" contentType
  if ctParts.length < 2 then .error ()
  else
    let boundary := encodeUtf8 (ctParts.getD 1 "")
    let parts := splitOnSub (encodeUtf8 "--" ++ boundary) body
    let mid := (parts.drop 1).dropLast
    mid.foldl (fun acc part =>
      match acc with
      | .error e => .error e
      | .ok (fs, count) =>
        match processPart part with
        | .error e => .error e
        | .ok none => .ok (fs, count)
        | .ok (some (name, content)) =>
          .ok (fs.write (pjoin fsPath name) content, count + 1)) (.ok (env.fs, 0))

/-- The result of a POST: an ordinary response or a download response. -/
inductive PostResp where
  | http (r : HttpResponse)
  | dl (r : DlResp)
deriving DecidableEq

/-- `do_POST` (lines 81-155): strip the query, resolve the target and run
the security check BEFORE anything else; read the body; a body whose
lenient UTF-8 decode contains `files_to_download=` dispatches to the
download handler; otherwise the target must be an existing directory and
the content type multipart, and the multipart body is parsed and
persisted.  The returned `Fs` reflects the uploads (unchanged on every
other path). -/
def do_POST (env : Env) (rawPath : String) (contentType : String) (body : List Nat) :
    PostResp × Fs × FsTrace :=
  let path := (pySplitStr "?" rawPath).getD 0 ""
  let fsPath := resolveReq env.root path
  if ¬ secCheck env.root fsPath then
    (.http (errorResponse 403 "Access denied"), env.fs, [])
  else
    let bodyStr := utf8DecodeIgnore body
    if containsSub "files_to_download=".data bodyStr.data then
      let r := handle_download env path (parseFilesList bodyStr)
      (.dl r.1, env.fs, r.2)
    else if ¬ env.fs.isdir fsPath then
      (.http (errorResponse 400 "Target must be a directory"), env.fs, [fsPath])
    else if ¬ containsSub "multipart/form-data".data contentType.data then
      (.http (errorResponse 400 "Invalid content type"), env.fs, [fsPath])
    else
      match uploadFiles env fsPath contentType body with
      | .error _ => (.http (errorResponse 500 "Upload failed"), env.fs, [fsPath])
      | .ok (fs', count) =>
        (.http { status := some 200
                 headers := [("Content-type", "text/plain")] ++ endHeaders
                 body := encodeUtf8 ("✅ Successfully uploaded " ++ toString count ++ " file(s)") },
         fs', [fsPath])


/-! Concrete multipart-request material for the upload claim: boundary
`BOUND`, one segment for `a.txt`, one for `b.txt`, and one ordinary form
field without a `filename=` marker. -/

/-- The boundary delimiter `--BOUND` as bytes. -/
def c4sep : List Nat := encodeUtf8 "--BOUND"

/-- The closing epilogue after the last delimiter. -/
def c4closing : List Nat := encodeUtf8 "--\r\n"

/-- Segment headers for the `a.txt` file part (up to and including the
blank line). -/
def c4hdrA : List Nat :=
  encodeUtf8 "\r\nContent-Disposition: form-data; name=\"files\"; filename=\"a.txt\"\r\n\r\n"

/-- Segment headers for the `b.txt` file part. -/
def c4hdrB : List Nat :=
  encodeUtf8 "\r\nContent-Disposition: form-data; name=\"files\"; filename=\"b.txt\"\r\n\r\n"

/-- The `a.txt` segment with payload `pa`. -/
def c4partA (pa : List Nat) : List Nat := c4hdrA ++ (pa ++ encodeUtf8 "\r\n")

/-- The `b.txt` segment with payload `pb`. -/
def c4partB (pb : List Nat) : List Nat := c4hdrB ++ (pb ++ encodeUtf8 "\r\n")

/-- A form-field segment without any `filename=` marker. -/
def c4partC : List Nat :=
  encodeUtf8 "\r\nContent-Disposition: form-data; name=\"note\"\r\n\r\nhello\r\n"

/-- The full multipart body for payloads `pa` and `pb`. -/
def c4body (pa pb : List Nat) : List Nat :=
  c4sep ++ (c4partA pa ++ (c4sep ++ (c4partB pb ++ (c4sep ++ (c4partC ++ (c4sep ++ c4closing))))))

/-- The content type carrying the boundary. -/
def c4ct : String := "multipart/form-data; boundary=BOUND"

/-- Environment for the C3 witness: a root directory with three entries. -/
def c3wenv : Env :=
  { fs := { node := fun p => if p = "/r" then .dir ["e1", "e2", "e3"] else .absent
            mtime := fun _ => 0 }
    root := "/r", mime := fun _ => none, hasPIL := false
    decodeImage := fun _ => .error (), extractFrame := fun _ => .error ()
    gz := fun l => l, zipBytes := fun _ => [] }

/-- Environment for the C6/C8 witnesses: failing collaborators. -/
def c6wenv : Env :=
  { fs := { node := fun _ => .absent, mtime := fun _ => 3 }
    root := "/r"
    mime := fun p => if p = "/r/v.mp4" then some "video/mp4" else some "image/png"
    hasPIL := true
    decodeImage := fun _ => .error (), extractFrame := fun _ => .error ()
    gz := fun l => l, zipBytes := fun _ => [] }

/-- Environment for the C7 witness: an empty root directory and a tiny
stand-in compressor. -/
def c7wenv : Env :=
  { fs := { node := fun p => if p = "/r" then .dir [] else .absent, mtime := fun _ => 0 }
    root := "/r", mime := fun _ => none, hasPIL := false
    decodeImage := fun _ => .error (), extractFrame := fun _ => .error ()
    gz := fun _ => [7, 7], zipBytes := fun _ => [] }

/-- The 150-byte file used by the C2 witness. -/
def c2content : List Nat := List.range 150

/-- Environment for the C5/C10 data: `/d` holds one real file `x.jpg`. -/
def c5env : Env :=
  { fs := { node := fun p =>
              if p = "/d/x.jpg" then .file [1, 2, 3]
              else if p = "/d" then .dir ["x.jpg"]
              else .absent
            mtime := fun _ => 0 }
    root := "/d", mime := fun _ => none, hasPIL := false
    decodeImage := fun _ => .error (), extractFrame := fun _ => .error ()
    gz := fun l => l, zipBytes := fun es => es.flatMap Prod.snd }

/-- Environment for the C1 counterexample: the serve root is `/data/root`,
and a sibling directory `/data/root2` shares its string prefix. -/
def c1env : Env :=
  { fs := { node := fun p => if p = "/data/root2/secret" then .file [7] else .absent
            mtime := fun _ => 0 }
    root := "/data/root", mime := fun _ => none, hasPIL := false
    decodeImage := fun _ => .error (), extractFrame := fun _ => .error ()
    gz := fun l => l, zipBytes := fun _ => [] }

/-- Environment for the C4 witness: an empty serve root directory `/r`. -/
def c4wenv : Env :=
  { fs := { node := fun p => if p = "/r" then .dir [] else .absent, mtime := fun _ => 0 }
    root := "/r", mime := fun _ => none, hasPIL := false
    decodeImage := fun _ => .error (), extractFrame := fun _ => .error ()
    gz := fun l => l, zipBytes := fun _ => [] }

/-- The `a.txt` payload of the C4 witness. -/
def c4pa : List Nat := encodeUtf8 "hello"

/-- The `b.txt` payload of the C4 witness. -/
def c4pb : List Nat := encodeUtf8 "world!"

/-! Lemmas about the sequence utilities. -/

lemma findSub?_nil_pat [DecidableEq α] (s : List α) : findSub? ([] : List α) s = some 0 := by
  cases s <;> simp [findSub?, List.isPrefixOf_iff_prefix]

lemma findSub?_bound [DecidableEq α] {pat s : List α} {i : Nat}
    (h : findSub? pat s = some i) : i + pat.length ≤ s.length := by
  induction s generalizing i with
  | nil =>
    by_cases hp : pat = ([] : List α)
    · subst hp
      simp [findSub?] at h
      omega
    · simp [findSub?, hp] at h
  | cons a s ih =>
    by_cases hpre : pat.isPrefixOf (a :: s)
    · have h0 : i = 0 := by
        rw [findSub?] at h
        simp [hpre] at h
        omega
      subst h0
      have hl := (List.isPrefixOf_iff_prefix.mp hpre).length_le
      simpa using hl
    · rw [findSub?] at h
      simp [hpre] at h
      obtain ⟨j, hj, hji⟩ := h
      have hb := ih hj
      simp only [List.length_cons]
      omega

lemma findSub?_append [DecidableEq α] {pat s : List α} {i : Nat}
    (h : findSub? pat s = some i) (t : List α) : findSub? pat (s ++ t) = some i := by
  induction s generalizing i with
  | nil =>
    by_cases hp : pat = ([] : List α)
    · subst hp
      simp [findSub?] at h
      rw [← h]
      simpa using findSub?_nil_pat t
    · simp [findSub?, hp] at h
  | cons a s ih =>
    by_cases hpre : pat.isPrefixOf (a :: s)
    · have h0 : i = 0 := by
        rw [findSub?] at h
        simp [hpre] at h
        omega
      subst h0
      have hpre' : pat.isPrefixOf (a :: (s ++ t)) := by
        rw [List.isPrefixOf_iff_prefix] at hpre ⊢
        refine hpre.trans ?_
        exact List.prefix_append (a :: s) t
      have hgoal : findSub? pat (a :: (s ++ t)) = some 0 := by
        rw [findSub?]
        simp [hpre']
      simpa using hgoal
    · rw [findSub?] at h
      simp [hpre] at h
      obtain ⟨j, hj, hji⟩ := h
      have hb := findSub?_bound hj
      have hpre' : ¬ pat.isPrefixOf (a :: (s ++ t)) := by
        intro hcon
        rw [List.isPrefixOf_iff_prefix] at hcon hpre
        refine hpre (List.prefix_of_prefix_length_le hcon ?_ ?_)
        · exact List.prefix_append (a :: s) t
        · simp only [List.length_cons]
          omega
      have hgoal : findSub? pat (a :: (s ++ t)) = some i := by
        rw [findSub?]
        simp only [hpre', if_false, Bool.false_eq_true, ite_false]
        rw [ih hj]
        simp [hji]
      simpa using hgoal

lemma findSub?_self_append [DecidableEq α] {pat : List α} (hp : pat ≠ []) (r : List α) :
    findSub? pat (pat ++ r) = some 0 := by
  obtain ⟨p, ps, rfl⟩ := List.exists_cons_of_ne_nil hp
  have hpre : (p :: ps).isPrefixOf (p :: (ps ++ r)) := by
    rw [List.isPrefixOf_iff_prefix]
    exact List.prefix_append (p :: ps) r
  have hgoal : findSub? (p :: ps) (p :: (ps ++ r)) = some 0 := by
    rw [findSub?]
    simp [hpre]
  simpa using hgoal

lemma findSub?_none_of_mem_not_mem [DecidableEq α] {pat s : List α} {c : α}
    (hc : c ∈ pat) (hs : c ∉ s) : findSub? pat s = none := by
  induction s with
  | nil =>
    have hne : pat ≠ [] := by rintro rfl; simp at hc
    simp [findSub?, hne]
  | cons a s ih =>
    have hpre : ¬ pat.isPrefixOf (a :: s) := by
      intro hcon
      exact hs ((List.isPrefixOf_iff_prefix.mp hcon).subset hc)
    rw [findSub?]
    simp [hpre, ih (fun h => hs (List.mem_cons_of_mem _ h))]

lemma splitOnSubAux_fuel [DecidableEq α] {pat : List α} (hp : pat ≠ []) :
    ∀ (f₁ : Nat) (f₂ : Nat) (s : List α), s.length < f₁ → s.length < f₂ →
      splitOnSubAux pat f₁ s = splitOnSubAux pat f₂ s := by
  intro f₁
  induction f₁ with
  | zero => intro f₂ s h₁ _; omega
  | succ f₁ ih =>
    intro f₂ s h₁ h₂
    obtain ⟨g₂, rfl⟩ : ∃ g, f₂ = g + 1 := ⟨f₂ - 1, by omega⟩
    rw [splitOnSubAux, splitOnSubAux]
    cases h : findSub? pat s with
    | none => rfl
    | some i =>
      have hb := findSub?_bound h
      have hplen : 0 < pat.length := List.length_pos.mpr hp
      have htail := ih g₂ (s.drop (i + pat.length))
        (by rw [List.length_drop]; omega) (by rw [List.length_drop]; omega)
      show List.take i s :: splitOnSubAux pat f₁ (List.drop (i + pat.length) s) =
        List.take i s :: splitOnSubAux pat g₂ (List.drop (i + pat.length) s)
      rw [htail]

lemma splitOnSub_cons [DecidableEq α] {pat a r : List α} (hp : pat ≠ [])
    (h : findSub? pat (a ++ pat ++ r) = some a.length) :
    splitOnSub pat (a ++ pat ++ r) = a :: splitOnSub pat r := by
  have hplen : 0 < pat.length := List.length_pos.mpr hp
  rw [splitOnSub, splitOnSubAux, h]
  show (a ++ pat ++ r).take a.length ::
      splitOnSubAux pat (a ++ pat ++ r).length ((a ++ pat ++ r).drop (a.length + pat.length)) =
      a :: splitOnSub pat r
  have htake : (a ++ pat ++ r).take a.length = a := by
    rw [List.append_assoc]
    exact List.take_left a (pat ++ r)
  have hdrop : (a ++ pat ++ r).drop (a.length + pat.length) = r := by
    have hl : a.length + pat.length = (a ++ pat).length := by simp
    rw [hl]
    exact List.drop_left (a ++ pat) r
  rw [htake, hdrop, splitOnSub]
  congr 1
  exact splitOnSubAux_fuel hp _ _ r (by simp; omega) (by omega)


lemma splitOnSub_of_none [DecidableEq α] {pat s : List α}
    (h : findSub? pat s = none) : splitOnSub pat s = [s] := by
  rw [splitOnSub, splitOnSubAux, h]

lemma replaceSub_of_none [DecidableEq α] {pat s : List α} (rep : List α)
    (h : findSub? pat s = none) : replaceSub pat rep s = s := by
  rw [replaceSub, replaceSubAux, h]

lemma replaceSub_del_head [DecidableEq α] {pat r : List α} (hp : pat ≠ [])
    (h : findSub? pat r = none) : replaceSub pat [] (pat ++ r) = r := by
  have hplen : 0 < pat.length := List.length_pos.mpr hp
  rw [replaceSub, replaceSubAux, findSub?_self_append hp r]
  simp only [List.take_zero, Nat.zero_add, List.nil_append]
  rw [List.drop_left]
  obtain ⟨g, hg⟩ : ∃ g, (pat ++ r).length = g + 1 :=
    ⟨pat.length + r.length - 1, by simp; omega⟩
  rw [hg, replaceSubAux, h]

lemma rfindSub?_append_pat [DecidableEq α] {pat : List α} (hp : pat ≠ []) (s : List α) :
    rfindSub? pat (s ++ pat) = some s.length := by
  have hrev : (s ++ pat).reverse = pat.reverse ++ s.reverse := by simp
  have hne : pat.reverse ≠ [] := by simpa using hp
  rw [rfindSub?, hrev, findSub?_self_append hne]
  simp


lemma findSub?_single_append [DecidableEq α] {c : α} {a : List α} (h : c ∉ a) (r : List α) :
    findSub? [c] (a ++ c :: r) = some a.length := by
  induction a with
  | nil =>
    have hpre : [c].isPrefixOf (c :: r) := by
      rw [List.isPrefixOf_iff_prefix, List.cons_prefix_cons]
      simp
    have hgoal : findSub? [c] (c :: r) = some 0 := by
      rw [findSub?]
      simp [hpre]
    simpa using hgoal
  | cons x a ih =>
    have hxc : x ≠ c := fun hh => h (hh ▸ List.mem_cons_self x a)
    have hpre : ¬ [c].isPrefixOf (x :: (a ++ c :: r)) := by
      rw [List.isPrefixOf_iff_prefix, List.cons_prefix_cons]
      rintro ⟨h1, -⟩
      exact hxc h1.symm
    have hgoal : findSub? [c] (x :: (a ++ c :: r)) = some (a.length + 1) := by
      rw [findSub?]
      simp [hpre, ih (fun hm => h (List.mem_cons_of_mem _ hm))]
    simpa using hgoal

lemma containsSub_append_left [DecidableEq α] {pat s : List α} (t : List α)
    (h : containsSub pat s = true) : containsSub pat (s ++ t) = true := by
  unfold containsSub at h ⊢
  cases heq : findSub? pat s with
  | none => rw [heq] at h; simp at h
  | some i => rw [findSub?_append heq t]; rfl

lemma pyStartsWith_append (p v : String) : pyStartsWith (p ++ v) p = true := by
  simp [pyStartsWith, String.data_append, List.isPrefixOf_iff_prefix]

lemma encodeUtf8_append (a b : String) : encodeUtf8 (a ++ b) = encodeUtf8 a ++ encodeUtf8 b := by
  simp [encodeUtf8, String.data_append]

lemma utf8Char_ne_nil (c : Char) : utf8Char c ≠ [] := by
  simp only [utf8Char]
  split
  · simp
  · split
    · simp
    · split <;> simp

lemma encodeUtf8_ne_nil {s : String} (h : s.data ≠ []) : encodeUtf8 s ≠ [] := by
  obtain ⟨c, l, hd⟩ := List.exists_cons_of_ne_nil h
  simp only [encodeUtf8, hd, List.flatMap_cons]
  simp [utf8Char_ne_nil c]

lemma pyJoinLines_cons_cons (x y : String) (l : List String) :
    pyJoinLines (x :: y :: l) = x ++ "\n" ++ pyJoinLines (y :: l) := rfl

lemma splitOnSub_cons' [DecidableEq α] {pat a r : List α} (hp : pat ≠ [])
    (h : findSub? pat (a ++ (pat ++ r)) = some a.length) :
    splitOnSub pat (a ++ (pat ++ r)) = a :: splitOnSub pat r := by
  rw [← List.append_assoc] at h ⊢
  exact splitOnSub_cons hp h

lemma splitOnSub_self_head [DecidableEq α] {pat : List α} (hp : pat ≠ []) (r : List α) :
    splitOnSub pat (pat ++ r) = [] :: splitOnSub pat r := by
  have h : findSub? pat (([] : List α) ++ (pat ++ r)) = some ([] : List α).length := by
    simpa using findSub?_self_append hp r
  simpa using splitOnSub_cons' hp h

lemma findSub?_junction [DecidableEq α] {pat a : List α}
    (h : findSub? pat (a ++ pat) = some a.length) (r : List α) :
    findSub? pat (a ++ (pat ++ r)) = some a.length := by
  have h2 := findSub?_append h r
  rwa [List.append_assoc] at h2

lemma pyFindFrom_nat_append [DecidableEq α] {pat s : List α} {st j : Nat} (t : List α)
    (hst : st ≤ s.length) (h : findSub? pat (s.drop st) = some j) :
    pyFindFrom pat (s ++ t) ((st : Nat) : Int) = (((st + j : Nat)) : Int) := by
  unfold pyFindFrom
  dsimp only
  rw [if_neg (by omega)]
  rw [min_eq_left (by simp [List.length_append]; omega)]
  rw [Int.toNat_natCast]
  rw [List.drop_append_of_le_length hst, findSub?_append h t]

lemma pySlice_take_drop {s : List α} {a b : Nat} (ha : a ≤ s.length) (hb : b ≤ s.length) :
    pySlice s ((a : Nat) : Int) ((b : Nat) : Int) = (s.take b).drop a := by
  unfold pySlice
  dsimp only
  rw [if_neg (by omega), if_neg (by omega)]
  rw [min_eq_left (by omega), min_eq_left (by omega)]
  rw [Int.toNat_natCast, Int.toNat_natCast]

lemma processPart_skip {part : List Nat}
    (h : containsSub (encodeUtf8 "filename=") part = false) :
    processPart part = Except.ok none := by
  unfold processPart
  simp [h]

lemma processPart_structured (hdr payload : List Nat) (i j k : Nat) (fname : String)
    (hmark : containsSub (encodeUtf8 "filename=") hdr = true)
    (hfq : findSub? (encodeUtf8 "filename=\"") hdr = some i)
    (hquote : findSub? (encodeUtf8 "\"") (hdr.drop (i + 10)) = some j)
    (hname : utf8DecodeStrict? ((hdr.take (i + 10 + j)).drop (i + 10)) = some fname)
    (hcr : findSub? (encodeUtf8 "\r\n\r\n") hdr = some k)
    (hend : k + 4 = hdr.length)
    (hfne : fname ≠ "") :
    processPart (hdr ++ (payload ++ encodeUtf8 "\r\n")) =
      Except.ok (some (pyBasename fname, payload)) := by
  have hfqb := findSub?_bound hfq
  rw [show (encodeUtf8 "filename=\"").length = 10 from by decide] at hfqb
  have hqb := findSub?_bound hquote
  rw [show (encodeUtf8 "\"").length = 1 from by decide, List.length_drop] at hqb
  have hij : i + 10 + j < hdr.length := by omega
  have hm' : containsSub (encodeUtf8 "filename=") (hdr ++ (payload ++ encodeUtf8 "\r\n")) = true :=
    containsSub_append_left _ hmark
  unfold processPart
  rw [if_neg (by simp [hm'])]
  dsimp only
  have e1 : pyFind (encodeUtf8 "filename=\"") (hdr ++ (payload ++ encodeUtf8 "\r\n")) + 10 =
      ((i + 10 : Nat) : Int) := by
    unfold pyFind
    rw [findSub?_append hfq (payload ++ encodeUtf8 "\r\n")]
    push_cast
    ring
  rw [e1]
  have e2 : pyFindFrom (encodeUtf8 "\"") (hdr ++ (payload ++ encodeUtf8 "\r\n"))
      ((i + 10 : Nat) : Int) = ((i + 10 + j : Nat) : Int) :=
    pyFindFrom_nat_append _ (by omega) hquote
  rw [e2]
  have e3 : pySlice (hdr ++ (payload ++ encodeUtf8 "\r\n")) ((i + 10 : Nat) : Int)
      ((i + 10 + j : Nat) : Int) = (hdr.take (i + 10 + j)).drop (i + 10) := by
    rw [pySlice_take_drop (by simp [List.length_append]; omega)
      (by simp [List.length_append]; omega)]
    rw [List.take_append_of_le_length (by omega)]
  rw [e3, hname]
  dsimp only
  rw [if_neg hfne]
  have e4 : pyFind (encodeUtf8 "\r\n\r\n") (hdr ++ (payload ++ encodeUtf8 "\r\n")) + 4 =
      ((hdr.length : Nat) : Int) := by
    unfold pyFind
    rw [findSub?_append hcr (payload ++ encodeUtf8 "\r\n")]
    push_cast
    omega
  rw [e4]
  have e5 : pyRfind (encodeUtf8 "\r\n") (hdr ++ (payload ++ encodeUtf8 "\r\n")) =
      ((hdr.length + payload.length : Nat) : Int) := by
    unfold pyRfind
    rw [show hdr ++ (payload ++ encodeUtf8 "\r\n") = (hdr ++ payload) ++ encodeUtf8 "\r\n"
      from by rw [List.append_assoc]]
    rw [rfindSub?_append_pat (by decide)]
    simp [List.length_append]
  rw [e5]
  have e6 : pySlice (hdr ++ (payload ++ encodeUtf8 "\r\n")) ((hdr.length : Nat) : Int)
      ((hdr.length + payload.length : Nat) : Int) = payload := by
    rw [pySlice_take_drop (by simp [List.length_append]; try omega)
      (by simp [List.length_append]; try omega)]
    rw [show hdr ++ (payload ++ encodeUtf8 "\r\n") = (hdr ++ payload) ++ encodeUtf8 "\r\n"
      from by rw [List.append_assoc]]
    rw [show hdr.length + payload.length = (hdr ++ payload).length from by simp]
    rw [List.take_left]
    rw [List.drop_left]
  rw [e6]

lemma string_eq_of_data_eq {a b : String} (h : a.data = b.data) : a = b := by
  cases a with
  | mk da =>
    cases b with
    | mk db =>
      have hdd : da = db := h
      rw [hdd]

lemma pjoin_right_inj {a b c : String} (hb : pyStartsWith b "/" = false)
    (hc : pyStartsWith c "/" = false) (h : pjoin a b = pjoin a c) : b = c := by
  unfold pjoin at h
  simp only [hb, hc, Bool.false_eq_true, if_false] at h
  by_cases hcond : a = "" ∨ pyEndsWith a "/" = true
  · simp only [hcond, if_pos] at h
    have hd := congrArg String.data h
    simp only [String.data_append] at hd
    exact string_eq_of_data_eq (List.append_cancel_left hd)
  · simp only [hcond, if_neg, if_false] at h
    have hd := congrArg String.data h
    simp only [String.data_append, List.append_assoc] at hd
    exact string_eq_of_data_eq (List.append_cancel_left (List.append_cancel_left hd))

lemma write_write_node (fs : Fs) {p q : String} (cp cq : List Nat) (hne : p ≠ q) :
    ((fs.write p cp).write q cq).node p = .file cp ∧
    ((fs.write p cp).write q cq).node q = .file cq := by
  constructor
  · simp [Fs.write, hne]
  · simp [Fs.write]

lemma c4_uploadFiles (env : Env) (fsPath : String) (pa pb : List Nat)
    (hA : findSub? c4sep (c4partA pa ++ c4sep) = some (c4partA pa).length)
    (hB : findSub? c4sep (c4partB pb ++ c4sep) = some (c4partB pb).length) :
    uploadFiles env fsPath c4ct (c4body pa pb) =
      Except.ok ((env.fs.write (pjoin fsPath "a.txt") pa).write (pjoin fsPath "b.txt") pb, 2) := by
  have hsepne : c4sep ≠ [] := by decide
  have hAproc : processPart (c4partA pa) = Except.ok (some ("a.txt", pa)) := by
    have h := processPart_structured c4hdrA pa 48 5 64 "a.txt" (by decide) (by decide)
      (by decide) (by decide) (by decide) (by decide) (by decide)
    rw [show pyBasename "a.txt" = "a.txt" from by decide] at h
    exact h
  have hBproc : processPart (c4partB pb) = Except.ok (some ("b.txt", pb)) := by
    have h := processPart_structured c4hdrB pb 48 5 64 "b.txt" (by decide) (by decide)
      (by decide) (by decide) (by decide) (by decide) (by decide)
    rw [show pyBasename "b.txt" = "b.txt" from by decide] at h
    exact h
  have hsplit : splitOnSub c4sep (c4body pa pb) =
      [[], c4partA pa, c4partB pb, c4partC, c4closing] := by
    unfold c4body
    rw [splitOnSub_self_head hsepne]
    rw [splitOnSub_cons' hsepne (findSub?_junction hA _)]
    rw [splitOnSub_cons' hsepne (findSub?_junction hB _)]
    rw [splitOnSub_cons' hsepne (findSub?_junction (by decide) _)]
    rw [splitOnSub_of_none (by decide)]
  unfold uploadFiles
  rw [show pySplitStr "boundary=" c4ct = ["multipart/form-data; ", "BOUND"] from by decide]
  dsimp only
  rw [if_neg (by decide)]
  rw [show encodeUtf8 "--" ++ encodeUtf8 (List.getD ["multipart/form-data; ", "BOUND"] 1 "") =
    c4sep from by decide]
  rw [hsplit]
  dsimp only [List.drop, List.dropLast, List.foldl]
  rw [hAproc]
  dsimp only
  rw [hBproc]
  dsimp only
  rw [processPart_skip (by decide)]

/-! Claim theorems. -/

/-- C9: the claim fails on the code.  `format_size` applies its
`rstrip('0').rstrip('.')` AFTER appending the unit suffix (line 922), so
the stripping can never fire (no unit ends in `0` or `.`): 512 bytes
renders as "512.0 B", not the claimed "512 B". -/
theorem claim_C9_trailing_zero_not_trimmed :
    format_size 512 = "512.0 B" ∧ format_size 512 ≠ "512 B" := by
  have h1 : round1fHalfEven ((512 : Nat) : ℚ) = 5120 := by
    rw [round1fHalfEven]
    norm_num
  have h2 : fmt1f ((512 : Nat) : ℚ) = "512.0" := by
    rw [fmt1f, h1]
    rfl
  have h3 : format_size 512 = "512.0 B" := by
    rw [format_size, format_sizeAux, if_pos (by norm_num), h2]
    decide
  exact ⟨h3, by rw [h3]; decide⟩

/-- C6: thumbnail-cache behavior: a present `(path, mtime)` key returns the
cached fragment identically, with no re-render and an unchanged cache; a
changed modification time whose fresh key is absent from the cache is a
miss and renders a fresh fragment; and at the capacity of 500 entries a
rendered fragment is still returned but not inserted, so a repeated
request renders again. -/
theorem claim_C6_thumbnail_cache (env : Env) (p f : String) (cache : ThumbCache) :
    (∀ v, cache.lookup (thumbKey env p) = some v →
      get_thumbnail_html env p f cache = (v, cache, false)) ∧
    (∀ m' : String → Nat,
      cache.lookup (p ++ ":" ++ toString (m' p)) = none →
      get_thumbnail_html { env with fs := { node := env.fs.node, mtime := m' } } p f cache =
        (renderFragment { env with fs := { node := env.fs.node, mtime := m' } } p f,
         if cache.length < MAX_CACHE_SIZE then
           (p ++ ":" ++ toString (m' p),
            renderFragment { env with fs := { node := env.fs.node, mtime := m' } } p f) :: cache
         else cache, true)) ∧
    (MAX_CACHE_SIZE ≤ cache.length → cache.lookup (thumbKey env p) = none →
      get_thumbnail_html env p f cache = (renderFragment env p f, cache, true) ∧
      (get_thumbnail_html env p f (get_thumbnail_html env p f cache).2.1).2.2 = true) := by
  refine ⟨?_, ?_, ?_⟩
  · intro v hv
    simp [get_thumbnail_html, hv]
  · intro m' hm
    simp [get_thumbnail_html, thumbKey, hm]
  · intro hcap hnone
    have hlt : ¬ (cache.length < MAX_CACHE_SIZE) := by omega
    have h1 : get_thumbnail_html env p f cache = (renderFragment env p f, cache, true) := by
      simp [get_thumbnail_html, hnone, hlt]
    refine ⟨h1, ?_⟩
    rw [h1]
    dsimp only
    rw [h1]

/-- C8: thumbnail rendering failures never escape to the caller: an ffmpeg
failure, timeout or missing output frame makes `extract_video_thumbnail`
yield `none`; a PIL decode failure (or absent PIL) yields the image icon
marker; a failed video extraction yields the video icon marker; and on a
cache miss `get_thumbnail_html` returns exactly the rendered fragment —
the model is a total function, mirroring the `try/except` walls of the
source. -/
theorem claim_C8_render_failures_degrade (env : Env) (p f : String) (cache : ThumbCache)
    (m : String) :
    ((env.extractFrame p = .error () ∨ env.extractFrame p = .ok none) →
      extract_video_thumbnail env.extractFrame p = none) ∧
    (env.mime p = some m → pyStartsWith m "image/" = true →
      (env.hasPIL = false ∨ env.decodeImage p = .error ()) →
      renderFragment env p f = iconFragment "🖼️") ∧
    (env.mime p = some m → pyStartsWith m "image/" = false → pyStartsWith m "video/" = true →
      extract_video_thumbnail env.extractFrame p = none →
      renderFragment env p f = iconFragment "🎬") ∧
    (cache.lookup (thumbKey env p) = none →
      (get_thumbnail_html env p f cache).1 = renderFragment env p f) := by
  refine ⟨?_, ?_, ?_, ?_⟩
  · intro h
    rcases h with h | h <;> simp [extract_video_thumbnail, h]
  · intro hm himg hfail
    rcases hfail with hf | hf
    · simp [renderFragment, hm, himg, hf]
    · cases hp : env.hasPIL
      · simp [renderFragment, hm, himg, hp]
      · simp [renderFragment, hm, himg, hp, hf]
  · intro hm himg hvid hext
    simp [renderFragment, hm, himg, hvid, hext]
  · intro hnone
    simp [get_thumbnail_html, hnone]

/-- C3: pagination: page `k` of a directory with `N` entries holds
`min 50 (N - 50*(k-1))` entries for `1 ≤ k ≤ ⌈N/50⌉`; a page beyond the
last yields an empty page, not an error; and a `page` query value that is
non-numeric or below 1 normalizes to page 1. -/
theorem claim_C3_pagination (env : Env) (path : String) (es : List String) (k : Nat)
    (hdir : env.fs.node path = .dir es) :
    (1 ≤ k → k ≤ (es.length + 49) / 50 →
      (paginatedEntries (sortedEntries env path) k).length =
        min 50 (es.length - 50 * (k - 1))) ∧
    ((es.length + 49) / 50 < k →
      (paginatedEntries (sortedEntries env path) k).length = 0) ∧
    (∀ v : String,
      (parseInt? v = none ∨ ∃ n, parseInt? v = some n ∧ n < 1) →
      '&' ∉ v.data → '=' ∉ v.data →
      pageFromQuery ("page=" ++ v) = 1) := by
  have hlen : (sortedEntries env path).length = es.length := by
    unfold sortedEntries Fs.listdir
    rw [hdir]
    exact List.length_mergeSort _
  refine ⟨?_, ?_, ?_⟩
  · intro _ _
    simp only [paginatedEntries, ITEMS_PER_PAGE, List.length_take, List.length_drop, hlen]
    omega
  · intro hk
    simp only [paginatedEntries, ITEMS_PER_PAGE, List.length_take, List.length_drop, hlen]
    omega
  · intro v hv hamp heqv
    have hsplit : pySplitStr "&" ("page=" ++ v) = ["page=" ++ v] := by
      unfold pySplitStr
      have hnone : findSub? "&".data ("page=" ++ v).data = none := by
        apply findSub?_none_of_mem_not_mem (c := '&')
        · decide
        · rw [String.data_append]
          intro hmem
          rcases List.mem_append.mp hmem with h | h
          · revert h; decide
          · exact hamp h
      rw [splitOnSub_of_none hnone]
      rfl
    have hps : pySplitStr "=" ("page=" ++ v) = ["page", v] := by
      unfold pySplitStr
      rw [String.data_append,
        show ("page=".data : List Char) = "page".data ++ ['='] from by decide,
        List.append_assoc]
      have hfirst : findSub? "=".data ("page".data ++ ['='] ++ v.data) = some 4 := by
        have h4 := findSub?_single_append (c := '=') (a := "page".data) (by decide) v.data
        simpa using h4
      rw [show ("=".data : List Char) = ['='] from rfl] at hfirst ⊢
      rw [show ("page".data ++ (['='] ++ v.data) : List Char) =
        "page".data ++ ['='] ++ v.data from by rw [List.append_assoc]]
      rw [splitOnSub_cons (by decide) (by simpa using hfirst)]
      rw [splitOnSub_of_none (findSub?_none_of_mem_not_mem (by decide) heqv)]
      rfl
    unfold pageFromQuery
    rw [hsplit]
    show pageParamStep 1 ("page=" ++ v) = 1
    unfold pageParamStep
    rw [pyStartsWith_append]
    simp only [if_true]
    rw [hps]
    show (match parseInt? v with
      | some n => if n < 1 then 1 else n.toNat
      | none => 1) = 1
    rcases hv with h | ⟨n, hn, hlt⟩
    · rw [h]
    · rw [hn]
      simp [hlt]

/-- C3 witness: the pagination law and the page normalization evaluated at
a concrete three-entry directory. -/
theorem claim_C3_pagination_witness :
    (paginatedEntries (sortedEntries c3wenv "/r") 1).length = min 50 (3 - 50 * (1 - 1)) ∧
    (paginatedEntries (sortedEntries c3wenv "/r") 2).length = 0 ∧
    pageFromQuery ("page=" ++ "abc") = 1 ∧
    pageFromQuery ("page=" ++ "0") = 1 :=
  ⟨(claim_C3_pagination c3wenv "/r" ["e1", "e2", "e3"] 1 (by decide)).1 (by decide) (by decide),
   (claim_C3_pagination c3wenv "/r" ["e1", "e2", "e3"] 2 (by decide)).2.1 (by decide),
   (claim_C3_pagination c3wenv "/r" ["e1", "e2", "e3"] 1 (by decide)).2.2 "abc"
     (Or.inl (by decide)) (by decide) (by decide),
   (claim_C3_pagination c3wenv "/r" ["e1", "e2", "e3"] 1 (by decide)).2.2 "0"
     (Or.inr ⟨0, by decide, by decide⟩) (by decide) (by decide)⟩

set_option maxRecDepth 8000 in
/-- C6 witness: hit, miss-after-mtime-change, and at-capacity behavior at
concrete inputs. -/
theorem claim_C6_thumbnail_cache_witness :
    get_thumbnail_html c6wenv "/r/a.png" "a.png" [("/r/a.png:3", "frag")] =
      ("frag", [("/r/a.png:3", "frag")], false) ∧
    get_thumbnail_html { c6wenv with fs := { node := c6wenv.fs.node, mtime := fun _ => 4 } }
        "/r/a.png" "a.png" [("/r/a.png:3", "frag")] =
      (renderFragment { c6wenv with fs := { node := c6wenv.fs.node, mtime := fun _ => 4 } }
        "/r/a.png" "a.png",
       ("/r/a.png:4",
        renderFragment { c6wenv with fs := { node := c6wenv.fs.node, mtime := fun _ => 4 } }
          "/r/a.png" "a.png") :: [("/r/a.png:3", "frag")], true) ∧
    (MAX_CACHE_SIZE ≤ (List.replicate 500 ("k", "v")).length →
      get_thumbnail_html c6wenv "/r/a.png" "a.png" (List.replicate 500 ("k", "v")) =
        (renderFragment c6wenv "/r/a.png" "a.png", List.replicate 500 ("k", "v"), true)) := by
  refine ⟨?_, ?_, ?_⟩
  · exact (claim_C6_thumbnail_cache c6wenv "/r/a.png" "a.png" [("/r/a.png:3", "frag")]).1
      "frag" (by decide)
  · have h := (claim_C6_thumbnail_cache c6wenv "/r/a.png" "a.png"
      [("/r/a.png:3", "frag")]).2.1 (fun _ => 4) (by decide)
    simpa using h
  · intro hcap
    exact ((claim_C6_thumbnail_cache c6wenv "/r/a.png" "a.png"
      (List.replicate 500 ("k", "v"))).2.2 hcap (by decide)).1

/-- C8 witness: the failure paths evaluated at concrete inputs. -/
theorem claim_C8_render_failures_degrade_witness :
    extract_video_thumbnail c6wenv.extractFrame "/r/v.mp4" = none ∧
    renderFragment c6wenv "/r/a.png" "a.png" = iconFragment "🖼️" ∧
    renderFragment c6wenv "/r/v.mp4" "v.mp4" = iconFragment "🎬" := by
  refine ⟨?_, ?_, ?_⟩
  · exact (claim_C8_render_failures_degrade c6wenv "/r/v.mp4" "v.mp4" [] "video/mp4").1
      (Or.inl rfl)
  · exact (claim_C8_render_failures_degrade c6wenv "/r/a.png" "a.png" [] "image/png").2.1
      (by decide) (by decide) (Or.inr rfl)
  · exact (claim_C8_render_failures_degrade c6wenv "/r/v.mp4" "v.mp4" [] "video/mp4").2.2.1
      (by decide) (by decide) (by decide)
      ((claim_C8_render_failures_degrade c6wenv "/r/v.mp4" "v.mp4" [] "video/mp4").1
        (Or.inl rfl))

lemma listingHtml_starts (env : Env) (path : String) (page : Nat) (cache : ThumbCache) :
    ∃ r : String, (listingHtml env path page cache).1 = "<!DOCTYPE html>" ++ ("\n" ++ r) := by
  unfold listingHtml htmlHeadParts
  dsimp only
  simp only [List.cons_append]
  rw [pyJoinLines_cons_cons, String.append_assoc]
  exact ⟨_, rfl⟩

/-- C7: the claim is right and the code is wrong.  `list_directory` sets
`Content-Length` to the compressed length and then writes BOTH the
compressed bytes and the raw encoded document again (lines 791-792), so
the transmitted body is `gzip(html) ++ html`, never exactly `gzip(html)`
(the document always starts with the doctype line, hence is non-empty),
and its length never matches the advertised `Content-Length`. -/
theorem claim_C7_listing_body_double_write (env : Env) (path : String) (page : Nat)
    (cache : ThumbCache) (es : List String) (hdir : env.fs.node path = .dir es) :
    (list_directory env path page cache).1.body =
      env.gz (encodeUtf8 (listingHtml env path page cache).1) ++
        encodeUtf8 (listingHtml env path page cache).1 ∧
    ("Content-Length", toString (env.gz (encodeUtf8 (listingHtml env path page cache).1)).length)
      ∈ (list_directory env path page cache).1.headers ∧
    (list_directory env path page cache).1.body ≠
      env.gz (encodeUtf8 (listingHtml env path page cache).1) ∧
    (list_directory env path page cache).1.body.length ≠
      (env.gz (encodeUtf8 (listingHtml env path page cache).1)).length := by
  have hne : encodeUtf8 ((listingHtml env path page cache).1) ≠ [] := by
    obtain ⟨r, hr⟩ := listingHtml_starts env path page cache
    rw [hr, encodeUtf8_append]
    intro hcon
    exact encodeUtf8_ne_nil (s := "<!DOCTYPE html>") (by decide) (List.append_eq_nil.mp hcon).1
  have hld : list_directory env path page cache =
      ({ status := some 200
         headers :=
           [("Content-type", "text/html; charset=utf-8"),
            ("Content-Encoding", "gzip"),
            ("Content-Length",
              toString (env.gz (encodeUtf8 (listingHtml env path page cache).1)).length)] ++
             endHeaders
         body := env.gz (encodeUtf8 (listingHtml env path page cache).1) ++
           encodeUtf8 (listingHtml env path page cache).1 },
       (listingHtml env path page cache).2) := by
    unfold list_directory
    rw [hdir]
  have hlen0 : (encodeUtf8 ((listingHtml env path page cache).1)).length ≠ 0 := by
    intro hcon
    exact hne (List.length_eq_zero.mp hcon)
  refine ⟨by rw [hld], by rw [hld]; simp, ?_, ?_⟩
  · rw [hld]
    intro hcon
    have hl := congrArg List.length hcon
    simp only [List.length_append] at hl
    omega
  · rw [hld]
    simp only [List.length_append]
    omega

/-- C7 witness: the double write observed on a concrete listing. -/
theorem claim_C7_listing_body_double_write_witness :
    c7wenv.fs.node "/r" = .dir [] ∧
    (list_directory c7wenv "/r" 1 []).1.body ≠
      c7wenv.gz (encodeUtf8 (listingHtml c7wenv "/r" 1 []).1) ∧
    (list_directory c7wenv "/r" 1 []).1.body.length ≠
      (c7wenv.gz (encodeUtf8 (listingHtml c7wenv "/r" 1 []).1)).length :=
  ⟨by decide,
   (claim_C7_listing_body_double_write c7wenv "/r" 1 [] [] (by decide)).2.2.1,
   (claim_C7_listing_body_double_write c7wenv "/r" 1 [] [] (by decide)).2.2.2⟩

lemma send_file_parsed (gz : List Nat → List Nat) (mime : Option String) (content : List Nat)
    (rh : String) (sa sb : Option Int) (h : parseRangeBounds rh = some (sa, sb)) :
    send_file gz mime content (some rh) =
      rangeResponse (mime.getD "application/octet-stream") content (sa.getD 0)
        (sb.getD ((content.length : Int) - 1)) := by
  unfold send_file
  dsimp only
  rw [h]

lemma send_file_parse_fail (gz : List Nat → List Nat) (mime : Option String) (content : List Nat)
    (rh : String) (h : parseRangeBounds rh = none) :
    send_file gz mime content (some rh) = { status := none, headers := [], body := content } := by
  unfold send_file
  dsimp only
  rw [h]
  rfl

lemma rangeResponse_widen (mt : String) (content : List Nat) (rs0 re0 : Int)
    (h : (content.length : Int) ≤ rs0 ∨ (content.length : Int) ≤ re0) :
    rangeResponse mt content rs0 re0 =
      { status := some 206
        headers :=
          [("Content-type", mt),
           ("Content-Length", toString (content.length : Int)),
           ("Content-Range", "bytes 0-" ++ toString ((content.length : Int) - 1) ++ "/" ++
             toString (content.length : Int)),
           ("Accept-Ranges", "bytes"),
           ("Cache-Control", "public, max-age=86400")] ++ endHeaders
        body := content } := by
  unfold rangeResponse
  dsimp only
  have hcond : rs0 ≥ (content.length : Int) ∨ re0 ≥ (content.length : Int) := by
    rcases h with h | h
    · exact Or.inl h
    · exact Or.inr h
  rw [if_pos hcond, if_pos hcond]
  have harith : (content.length : Int) - 1 - 0 + 1 = (content.length : Int) := by omega
  rw [harith]
  have hbody : (content.drop (0 : Int).toNat).take ((content.length : Int)).toNat = content := by
    simp
  rw [hbody]
  have hcr : ("bytes " ++ toString (0 : Int) ++ "-" : String) = "bytes 0-" := by decide
  rw [show ("bytes " ++ toString (0 : Int) ++ "-" ++ toString ((content.length : Int) - 1) ++
        "/" ++ toString (content.length : Int) : String) =
      "bytes 0-" ++ toString ((content.length : Int) - 1) ++ "/" ++
        toString (content.length : Int) from by rw [hcr]]

lemma rangeResponse_within (mt : String) (content : List Nat) (rs0 re0 : Int)
    (h1 : rs0 < (content.length : Int)) (h2 : re0 < (content.length : Int)) :
    rangeResponse mt content rs0 re0 =
      { status := some 206
        headers :=
          [("Content-type", mt),
           ("Content-Length", toString (re0 - rs0 + 1)),
           ("Content-Range", "bytes " ++ toString rs0 ++ "-" ++ toString re0 ++ "/" ++
             toString (content.length : Int)),
           ("Accept-Ranges", "bytes"),
           ("Cache-Control", "public, max-age=86400")] ++ endHeaders
        body := (content.drop rs0.toNat).take (re0 - rs0 + 1).toNat } := by
  unfold rangeResponse
  dsimp only
  have hcond : ¬ (rs0 ≥ (content.length : Int) ∨ re0 ≥ (content.length : Int)) := by
    push_neg
    exact ⟨h1, h2⟩
  rw [if_neg hcond, if_neg hcond]

/-- C2: byte-range streaming: `bytes=0-99` on a file of at least 100 bytes
yields a 206 whose body is exactly the first 100 bytes with
`Content-Length: 100` and `Content-Range: bytes 0-99/S`; a parsed bound at
or past the file size widens the response to the whole file as a 206 with
`Content-Range: bytes 0-(S-1)/S`; an omitted start defaults to 0 and an
omitted end to `S-1`; and no response to a `Range` request ever carries a
`Content-Encoding` header. -/
theorem claim_C2_range_streaming (gz : List Nat → List Nat) (mime : Option String)
    (content : List Nat) :
    (100 ≤ content.length →
      send_file gz mime content (some "bytes=0-99") =
        { status := some 206
          headers :=
            [("Content-type", mime.getD "application/octet-stream"),
             ("Content-Length", "100"),
             ("Content-Range", "bytes 0-99/" ++ toString (content.length : Int)),
             ("Accept-Ranges", "bytes"),
             ("Cache-Control", "public, max-age=86400")] ++ endHeaders
          body := content.take 100 } ∧
      (content.take 100).length = 100) ∧
    (∀ (rh : String) (sa sb : Option Int), parseRangeBounds rh = some (sa, sb) →
      ((content.length : Int) ≤ sa.getD 0 ∨
        (content.length : Int) ≤ sb.getD ((content.length : Int) - 1)) →
      send_file gz mime content (some rh) =
        { status := some 206
          headers :=
            [("Content-type", mime.getD "application/octet-stream"),
             ("Content-Length", toString (content.length : Int)),
             ("Content-Range", "bytes 0-" ++ toString ((content.length : Int) - 1) ++ "/" ++
               toString (content.length : Int)),
             ("Accept-Ranges", "bytes"),
             ("Cache-Control", "public, max-age=86400")] ++ endHeaders
          body := content }) ∧
    (∀ (rh : String) (sb : Option Int), parseRangeBounds rh = some (none, sb) →
      send_file gz mime content (some rh) =
        rangeResponse (mime.getD "application/octet-stream") content 0
          (sb.getD ((content.length : Int) - 1))) ∧
    (∀ (rh : String) (sa : Option Int), parseRangeBounds rh = some (sa, none) →
      send_file gz mime content (some rh) =
        rangeResponse (mime.getD "application/octet-stream") content (sa.getD 0)
          ((content.length : Int) - 1)) ∧
    (∀ rh : String,
      "Content-Encoding" ∉ (send_file gz mime content (some rh)).headers.map Prod.fst) := by
  refine ⟨?_, ?_, ?_, ?_, ?_⟩
  · intro h100
    have hp : parseRangeBounds "bytes=0-99" = some (some 0, some 99) := by decide
    rw [send_file_parsed gz mime content _ _ _ hp]
    have hlt0 : (0 : Int) < (content.length : Int) := by omega
    have hlt99 : (99 : Int) < (content.length : Int) := by omega
    have hr := rangeResponse_within (mime.getD "application/octet-stream") content 0 99 hlt0 hlt99
    simp only [Option.getD_some] at hr ⊢
    rw [hr]
    refine ⟨?_, by rw [List.length_take]; omega⟩
    rw [show (toString ((99 : Int) - 0 + 1) : String) = "100" from by decide]
    rw [show ("bytes " ++ toString (0 : Int) ++ "-" ++ toString (99 : Int) ++ "/" : String) =
      "bytes 0-99/" from by decide]
    rw [show (((99 : Int) - 0 + 1).toNat) = 100 from by decide]
    rw [show ((0 : Int).toNat) = 0 from rfl, List.drop_zero]
  · intro rh sa sb hp hwide
    rw [send_file_parsed gz mime content _ _ _ hp]
    exact rangeResponse_widen _ content _ _ hwide
  · intro rh sb hp
    rw [send_file_parsed gz mime content _ _ _ hp]
    rfl
  · intro rh sa hp
    rw [send_file_parsed gz mime content _ _ _ hp]
    rfl
  · intro rh
    cases hp : parseRangeBounds rh with
    | none =>
      rw [send_file_parse_fail gz mime content _ hp]
      simp
    | some p =>
      obtain ⟨sa, sb⟩ := p
      rw [send_file_parsed gz mime content _ _ _ hp]
      unfold rangeResponse
      dsimp only
      simp [endHeaders]

set_option maxRecDepth 8000 in
/-- C2 witness: the range behaviors at a concrete 150-byte file. -/
theorem claim_C2_range_streaming_witness :
    100 ≤ c2content.length ∧
    send_file (fun l => l) none c2content (some "bytes=0-99") =
      { status := some 206
        headers :=
          [("Content-type", "application/octet-stream"),
           ("Content-Length", "100"),
           ("Content-Range", "bytes 0-99/" ++ toString (c2content.length : Int)),
           ("Accept-Ranges", "bytes"),
           ("Cache-Control", "public, max-age=86400")] ++ endHeaders
        body := c2content.take 100 } ∧
    send_file (fun l => l) none c2content (some "bytes=0-200") =
      { status := some 206
        headers :=
          [("Content-type", "application/octet-stream"),
           ("Content-Length", toString (c2content.length : Int)),
           ("Content-Range", "bytes 0-" ++ toString ((c2content.length : Int) - 1) ++ "/" ++
             toString (c2content.length : Int)),
           ("Accept-Ranges", "bytes"),
           ("Cache-Control", "public, max-age=86400")] ++ endHeaders
        body := c2content } ∧
    send_file (fun l => l) none c2content (some "bytes=-5") =
      rangeResponse "application/octet-stream" c2content 0 5 ∧
    send_file (fun l => l) none c2content (some "bytes=7-") =
      rangeResponse "application/octet-stream" c2content 7 ((c2content.length : Int) - 1) ∧
    "Content-Encoding" ∉
      (send_file (fun l => l) none c2content (some "bytes=9-12")).headers.map Prod.fst := by
  refine ⟨by decide, ?_, ?_, ?_, ?_, ?_⟩
  · exact ((claim_C2_range_streaming (fun l => l) none c2content).1 (by decide)).1
  · exact (claim_C2_range_streaming (fun l => l) none c2content).2.1 "bytes=0-200"
      (some 0) (some 200) (by decide) (by decide)
  · exact (claim_C2_range_streaming (fun l => l) none c2content).2.2.1 "bytes=-5"
      (some 5) (by decide)
  · exact (claim_C2_range_streaming (fun l => l) none c2content).2.2.2.1 "bytes=7-"
      (some 7) (by decide)
  · exact (claim_C2_range_streaming (fun l => l) none c2content).2.2.2.2 "bytes=9-12"

/-- C10: a single-name selection whose name passes the prefix check but does
not reference a regular file (missing file or directory) is not answered
with a 404 or 403: `handle_download` falls through to the archive path and
responds 200 with a `download.zip` attachment disposition and an archive
of zero entries. -/
theorem claim_C10_single_invalid_name_empty_zip (env : Env) (pathStr n : String)
    (hchk : secCheck env.root (normpath (pjoin (resolveReq env.root pathStr) n)) = true)
    (hnf : env.fs.isfile (normpath (pjoin (resolveReq env.root pathStr) n)) = false) :
    handle_download env pathStr [n] =
      (.zipR 200
        ([("Content-type", "application/zip"),
          ("Content-Disposition", "attachment; filename=\"download.zip\""),
          ("Content-Length", toString (env.zipBytes []).length)] ++ endHeaders)
        "ZIP_DEFLATED" [],
       [normpath (pjoin (resolveReq env.root pathStr) n),
        normpath (pjoin (resolveReq env.root pathStr) n)]) := by
  unfold handle_download
  simp [hchk, hnf, send_zip_download, zipEntries, zipTrace]

/-- C10 witness: one contained but missing name yields the empty archive. -/
theorem claim_C10_single_invalid_name_empty_zip_witness :
    secCheck c5env.root (normpath (pjoin (resolveReq c5env.root "/") "ghost")) = true ∧
    c5env.fs.isfile (normpath (pjoin (resolveReq c5env.root "/") "ghost")) = false ∧
    handle_download c5env "/" ["ghost"] =
      (.zipR 200
        ([("Content-type", "application/zip"),
          ("Content-Disposition", "attachment; filename=\"download.zip\""),
          ("Content-Length", toString (c5env.zipBytes []).length)] ++ endHeaders)
        "ZIP_DEFLATED" [],
       [normpath (pjoin (resolveReq c5env.root "/") "ghost"),
        normpath (pjoin (resolveReq c5env.root "/") "ghost")]) :=
  ⟨by decide, by decide,
   claim_C10_single_invalid_name_empty_zip c5env "/" "ghost" (by decide) (by decide)⟩

/-- C5 counterexample: the selection `["x.jpg", "missing"]` has exactly one
valid name (`x.jpg` — contained and a regular file), yet the response is a
one-entry zip archive, not the direct stream with a `Content-Disposition`
naming `x.jpg` that the claim promises for "exactly one valid name":
`handle_download` branches on the number of REQUESTED names, not on the
number of valid ones. -/
theorem claim_C5_counterexample_one_valid_name_zipped :
    (["x.jpg", "missing"].filter (fun nm =>
        secCheck c5env.root (normpath (pjoin (resolveReq c5env.root "/") nm)) ∧
        c5env.fs.isfile (normpath (pjoin (resolveReq c5env.root "/") nm))) = ["x.jpg"]) ∧
    (handle_download c5env "/" ["x.jpg", "missing"]).1 =
      .zipR 200
        ([("Content-type", "application/zip"),
          ("Content-Disposition", "attachment; filename=\"download.zip\""),
          ("Content-Length", "3")] ++ endHeaders)
        "ZIP_DEFLATED" [("x.jpg", [1, 2, 3])] := by
  constructor <;> decide

/-- C5 (amended): a selection with exactly one REQUESTED name that is valid
streams the file directly with a `Content-Disposition` carrying the name;
a selection of two or more names (however many are valid) yields a single
`ZIP_DEFLATED` archive whose entries are exactly the valid names, flat,
with byte-identical content, invalid names silently dropped. -/
theorem claim_C5_download_packaging (env : Env) :
    (∀ (pathStr n : String) (content : List Nat),
      secCheck env.root (normpath (pjoin (resolveReq env.root pathStr) n)) = true →
      env.fs.node (normpath (pjoin (resolveReq env.root pathStr) n)) = .file content →
      handle_download env pathStr [n] =
        (.single 200
          ([("Content-type", "application/octet-stream"),
            ("Content-Disposition", "attachment; filename=\"" ++ n ++ "\""),
            ("Content-Length", toString content.length)] ++ endHeaders)
          content,
         [normpath (pjoin (resolveReq env.root pathStr) n),
          normpath (pjoin (resolveReq env.root pathStr) n)])) ∧
    (∀ (pathStr : String) (names : List String), 2 ≤ names.length →
      (handle_download env pathStr names).1 =
        .zipR 200
          ([("Content-type", "application/zip"),
            ("Content-Disposition", "attachment; filename=\"download.zip\""),
            ("Content-Length",
              toString (env.zipBytes
                (zipEntries env (resolveReq env.root pathStr) names)).length)] ++ endHeaders)
          "ZIP_DEFLATED" (zipEntries env (resolveReq env.root pathStr) names)) ∧
    (∀ (basePath : String) (names : List String) (nm : String) (c : List Nat),
      (nm, c) ∈ zipEntries env basePath names →
      nm ∈ names ∧ secCheck env.root (normpath (pjoin basePath nm)) = true ∧
        env.fs.isfile (normpath (pjoin basePath nm)) = true ∧
        env.fs.content (normpath (pjoin basePath nm)) = c) ∧
    (∀ (basePath : String) (names : List String) (nm : String),
      nm ∈ names → secCheck env.root (normpath (pjoin basePath nm)) = true →
      env.fs.isfile (normpath (pjoin basePath nm)) = true →
      (nm, env.fs.content (normpath (pjoin basePath nm))) ∈ zipEntries env basePath names) := by
  refine ⟨?_, ?_, ?_, ?_⟩
  · intro pathStr n content hchk hnode
    have hif : env.fs.isfile (normpath (pjoin (resolveReq env.root pathStr) n)) = true := by
      unfold Fs.isfile
      rw [hnode]
    have hcon : env.fs.content (normpath (pjoin (resolveReq env.root pathStr) n)) = content := by
      unfold Fs.content
      rw [hnode]
    unfold handle_download
    simp [hchk, hif, send_file_download, Fs.size, hcon]
  · intro pathStr names h2
    match names, h2 with
    | n1 :: n2 :: rest, _ =>
      unfold handle_download
      simp [send_zip_download]
  · intro basePath names nm c hmem
    obtain ⟨a, ha, hfa⟩ := List.mem_filterMap.mp hmem
    dsimp only at hfa
    by_cases hchk : secCheck env.root (normpath (pjoin basePath a))
    · by_cases hisf : env.fs.isfile (normpath (pjoin basePath a))
      · simp [hchk, hisf] at hfa
        obtain ⟨rfl, rfl⟩ := hfa
        exact ⟨ha, hchk, hisf, rfl⟩
      · simp [hchk, hisf] at hfa
    · simp [hchk] at hfa
  · intro basePath names nm hmem hchk hisf
    refine List.mem_filterMap.mpr ⟨nm, hmem, ?_⟩
    simp [hchk, hisf]

/-- C5 witness: the amended behaviors evaluated at the concrete `/d` tree. -/
theorem claim_C5_download_packaging_witness :
    handle_download c5env "/" ["x.jpg"] =
      (.single 200
        ([("Content-type", "application/octet-stream"),
          ("Content-Disposition", "attachment; filename=\"x.jpg\""),
          ("Content-Length", toString ([1, 2, 3] : List Nat).length)] ++ endHeaders)
        [1, 2, 3],
       [normpath (pjoin (resolveReq c5env.root "/") "x.jpg"),
        normpath (pjoin (resolveReq c5env.root "/") "x.jpg")]) ∧
    (handle_download c5env "/" ["x.jpg", "missing"]).1 =
      .zipR 200
        ([("Content-type", "application/zip"),
          ("Content-Disposition", "attachment; filename=\"download.zip\""),
          ("Content-Length",
            toString (c5env.zipBytes
              (zipEntries c5env (resolveReq c5env.root "/") ["x.jpg", "missing"])).length)]
          ++ endHeaders)
        "ZIP_DEFLATED" (zipEntries c5env (resolveReq c5env.root "/") ["x.jpg", "missing"]) ∧
    ("x.jpg", c5env.fs.content (normpath (pjoin "/d" "x.jpg"))) ∈
      zipEntries c5env "/d" ["x.jpg", "missing"] :=
  ⟨(claim_C5_download_packaging c5env).1 "/" "x.jpg" [1, 2, 3] (by decide) (by decide),
   (claim_C5_download_packaging c5env).2.1 "/" ["x.jpg", "missing"] (by decide),
   (claim_C5_download_packaging c5env).2.2.2 "/d" ["x.jpg", "missing"] "x.jpg"
     (by decide) (by decide) (by decide)⟩

/-- C1 counterexample: the request path `/../root2/secret` resolves to
`/data/root2/secret`, which lies OUTSIDE the serve root `/data/root`, yet
the string-prefix security check passes (`"/data/root2/…".startswith
("/data/root")`), the server answers 200 and touches the resolved path —
the claim "outside the root ⇒ AccessDenied and no filesystem access"
fails on the code. -/
theorem claim_C1_counterexample_sibling_prefix_escape :
    withinRoot "/data/root" (resolveReq "/data/root" "/../root2/secret") = false ∧
    secCheck "/data/root" (resolveReq "/data/root" "/../root2/secret") = true ∧
    (do_GET c1env "/../root2/secret" none []).1.status = some 200 ∧
    resolveReq "/data/root" "/../root2/secret" ∈ (do_GET c1env "/../root2/secret" none []).2.2 := by
  refine ⟨by decide, by decide, by decide, by decide⟩

/-- C1 (amended): the server denies access exactly when the normalized
resolved location fails the STRING-PREFIX test against the normalized
root (not when it is outside the root): every failing GET/POST target and
single download name gets a 403 with an empty filesystem trace, and a
failing name inside a multi-file selection is omitted from the archive
and its resolved location is never touched. -/
theorem claim_C1_prefix_check_denials (env : Env) :
    (∀ (rawPath : String) (rangeHeader : Option String) (cache : ThumbCache),
      secCheck env.root (resolveReq env.root ((pySplitStr "?" rawPath).getD 0 "")) = false →
      do_GET env rawPath rangeHeader cache = (errorResponse 403 "Access denied", cache, [])) ∧
    (∀ (rawPath contentType : String) (body : List Nat),
      secCheck env.root (resolveReq env.root ((pySplitStr "?" rawPath).getD 0 "")) = false →
      do_POST env rawPath contentType body =
        (.http (errorResponse 403 "Access denied"), env.fs, [])) ∧
    (∀ (pathStr n : String),
      secCheck env.root (normpath (pjoin (resolveReq env.root pathStr) n)) = false →
      handle_download env pathStr [n] = (.err 403 "Access denied", [])) ∧
    (∀ (pathStr : String) (names : List String), 2 ≤ names.length →
      (handle_download env pathStr names).2 =
        zipTrace env (resolveReq env.root pathStr) names) ∧
    (∀ (pathStr : String) (names : List String) (n : String), n ∈ names →
      secCheck env.root (normpath (pjoin (resolveReq env.root pathStr) n)) = false →
      (∀ c, (n, c) ∉ zipEntries env (resolveReq env.root pathStr) names) ∧
      normpath (pjoin (resolveReq env.root pathStr) n) ∉
        zipTrace env (resolveReq env.root pathStr) names) := by
  refine ⟨?_, ?_, ?_, ?_, ?_⟩
  · intro rawPath rangeHeader cache h
    unfold do_GET
    dsimp only
    rw [h]
    simp
  · intro rawPath contentType body h
    unfold do_POST
    dsimp only
    rw [h]
    simp
  · intro pathStr n h
    unfold handle_download
    simp [h]
  · intro pathStr names h2
    match names, h2 with
    | n1 :: n2 :: rest, _ =>
      unfold handle_download
      simp
  · intro pathStr names n hmem h
    constructor
    · intro c hcon
      obtain ⟨a, ha, hfa⟩ := List.mem_filterMap.mp hcon
      dsimp only at hfa
      by_cases hchk : secCheck env.root (normpath (pjoin (resolveReq env.root pathStr) a))
      · by_cases hisf : env.fs.isfile (normpath (pjoin (resolveReq env.root pathStr) a))
        · simp [hchk, hisf] at hfa
          obtain ⟨rfl, rfl⟩ := hfa
          rw [hchk] at h
          simp at h
        · simp [hchk, hisf] at hfa
      · simp [hchk] at hfa
    · intro hcon
      obtain ⟨a, ha, hfa⟩ := List.mem_filterMap.mp hcon
      dsimp only at hfa
      by_cases hchk : secCheck env.root (normpath (pjoin (resolveReq env.root pathStr) a))
      · simp [hchk] at hfa
        rw [← hfa] at h
        rw [hchk] at h
        simp at h
      · simp [hchk] at hfa

/-- C1 witness: the amended denials evaluated on concrete escaping paths. -/
theorem claim_C1_prefix_check_denials_witness :
    do_GET c1env "/../../etc/passwd" none [] =
      (errorResponse 403 "Access denied", [], []) ∧
    do_POST c1env "/../../etc/passwd" "text/plain" [] =
      (.http (errorResponse 403 "Access denied"), c1env.fs, []) ∧
    handle_download c1env "/" ["/etc/shadow"] = (.err 403 "Access denied", []) ∧
    (("/etc/shadow", ([9] : List Nat)) ∉
      zipEntries c1env (resolveReq c1env.root "/") ["ok.txt", "/etc/shadow"]) ∧
    normpath (pjoin (resolveReq c1env.root "/") "/etc/shadow") ∉
      zipTrace c1env (resolveReq c1env.root "/") ["ok.txt", "/etc/shadow"] :=
  ⟨(claim_C1_prefix_check_denials c1env).1 "/../../etc/passwd" none [] (by decide),
   (claim_C1_prefix_check_denials c1env).2.1 "/../../etc/passwd" "text/plain" [] (by decide),
   (claim_C1_prefix_check_denials c1env).2.2.1 "/" "/etc/shadow" (by decide),
   ((claim_C1_prefix_check_denials c1env).2.2.2.2 "/" ["ok.txt", "/etc/shadow"] "/etc/shadow"
     (by decide) (by decide)).1 [9],
   ((claim_C1_prefix_check_denials c1env).2.2.2.2 "/" ["ok.txt", "/etc/shadow"] "/etc/shadow"
     (by decide) (by decide)).2⟩

/-- C4: a multipart POST to an existing directory whose body carries
segments for `a.txt` and `b.txt` (and one ordinary form field without a
`filename=` marker) writes both payloads byte-exactly under their
basenames into the target directory — overwriting whatever was there, for
any starting filesystem — and answers 200 reporting `2` uploaded; the
marker-less segment is skipped and does not affect the count.  The two
`findSub?` hypotheses say the payloads do not collide with the boundary
delimiter, which well-formed multipart encoding guarantees. -/
theorem claim_C4_multipart_upload (env : Env) (rawPath : String) (pa pb : List Nat)
    (hsec : secCheck env.root (resolveReq env.root ((pySplitStr "?" rawPath).getD 0 "")) = true)
    (hdir : env.fs.isdir (resolveReq env.root ((pySplitStr "?" rawPath).getD 0 "")) = true)
    (hnodl : containsSub "files_to_download=".data (utf8DecodeIgnore (c4body pa pb)).data = false)
    (hA : findSub? c4sep (c4partA pa ++ c4sep) = some (c4partA pa).length)
    (hB : findSub? c4sep (c4partB pb ++ c4sep) = some (c4partB pb).length) :
    do_POST env rawPath c4ct (c4body pa pb) =
      (.http { status := some 200
               headers := [("Content-type", "text/plain")] ++ endHeaders
               body := encodeUtf8 "✅ Successfully uploaded 2 file(s)" },
       (env.fs.write (pjoin (resolveReq env.root ((pySplitStr "?" rawPath).getD 0 "")) "a.txt")
           pa).write
         (pjoin (resolveReq env.root ((pySplitStr "?" rawPath).getD 0 "")) "b.txt") pb,
       [resolveReq env.root ((pySplitStr "?" rawPath).getD 0 "")]) ∧
    ((env.fs.write (pjoin (resolveReq env.root ((pySplitStr "?" rawPath).getD 0 "")) "a.txt")
          pa).write
        (pjoin (resolveReq env.root ((pySplitStr "?" rawPath).getD 0 "")) "b.txt") pb).node
      (pjoin (resolveReq env.root ((pySplitStr "?" rawPath).getD 0 "")) "a.txt") = .file pa ∧
    ((env.fs.write (pjoin (resolveReq env.root ((pySplitStr "?" rawPath).getD 0 "")) "a.txt")
          pa).write
        (pjoin (resolveReq env.root ((pySplitStr "?" rawPath).getD 0 "")) "b.txt") pb).node
      (pjoin (resolveReq env.root ((pySplitStr "?" rawPath).getD 0 "")) "b.txt") = .file pb := by
  have hne : pjoin (resolveReq env.root ((pySplitStr "?" rawPath).getD 0 "")) "a.txt" ≠
      pjoin (resolveReq env.root ((pySplitStr "?" rawPath).getD 0 "")) "b.txt" := by
    intro hcon
    have heq := pjoin_right_inj (by decide) (by decide) hcon
    exact absurd heq (by decide)
  refine ⟨?_, (write_write_node env.fs pa pb hne).1, (write_write_node env.fs pa pb hne).2⟩
  unfold do_POST
  dsimp only
  rw [if_neg (not_not_intro hsec)]
  rw [if_neg (by simp [hnodl])]
  rw [if_neg (not_not_intro hdir)]
  rw [if_neg (not_not_intro (by decide))]
  rw [c4_uploadFiles env _ pa pb hA hB]
  dsimp only
  rw [show ("✅ Successfully uploaded " ++ toString (2 : Nat) ++ " file(s)" : String) =
    "✅ Successfully uploaded 2 file(s)" from by decide]

set_option maxRecDepth 200000 in
/-- C4 witness: the upload evaluated at concrete payloads. -/
theorem claim_C4_multipart_upload_witness :
    do_POST c4wenv "/" c4ct (c4body c4pa c4pb) =
      (.http { status := some 200
               headers := [("Content-type", "text/plain")] ++ endHeaders
               body := encodeUtf8 "✅ Successfully uploaded 2 file(s)" },
       (c4wenv.fs.write (pjoin (resolveReq c4wenv.root ((pySplitStr "?" "/").getD 0 "")) "a.txt")
           c4pa).write
         (pjoin (resolveReq c4wenv.root ((pySplitStr "?" "/").getD 0 "")) "b.txt") c4pb,
       [resolveReq c4wenv.root ((pySplitStr "?" "/").getD 0 "")]) ∧
    ((c4wenv.fs.write (pjoin (resolveReq c4wenv.root ((pySplitStr "?" "/").getD 0 "")) "a.txt")
          c4pa).write
        (pjoin (resolveReq c4wenv.root ((pySplitStr "?" "/").getD 0 "")) "b.txt") c4pb).node
      (pjoin (resolveReq c4wenv.root ((pySplitStr "?" "/").getD 0 "")) "a.txt") = .file c4pa ∧
    ((c4wenv.fs.write (pjoin (resolveReq c4wenv.root ((pySplitStr "?" "/").getD 0 "")) "a.txt")
          c4pa).write
        (pjoin (resolveReq c4wenv.root ((pySplitStr "?" "/").getD 0 "")) "b.txt") c4pb).node
      (pjoin (resolveReq c4wenv.root ((pySplitStr "?" "/").getD 0 "")) "b.txt") = .file c4pb :=
  claim_C4_multipart_upload c4wenv "/" c4pa c4pb (by decide) (by decide) (by decide)
    (by decide) (by decide)

end WebSrv
